import Mathlib

/-! apcore: data-access layer (models), codecs, defaults

A shallow embedding of `models/serialization.go`, `models/outboxes.go`, the
documented parameters of `models/sql_dialect.go`, `emptyOrderedCollection` of
`services/activitystreams.go`, the scope checks of `example/app.go`, the
defaults of `framework/config.go`, `paths/paths.go` and `keys.go`.

Conventions of the embedding:

* a Go `error` is `Option GoError`, `none` being the nil error;
* a Go function that writes through a pointer receiver or a captured variable
  takes the old value and returns the new one next to its error;
* Go's `int` is the 64-bit two's-complement integer: values are `Int`s and
  arithmetic is reduced with `wrapInt`;
* pointers handed to the operations (`*url.URL`, `*sql.Tx`) are non-nil;
* functions of the Go standard library and of go-fed that the repository calls
  are fields of `Lib`; constants of go-fed's `pub` package are fields of
  `PubConsts`;
* parts of the repository that are not among the sources (the statements of the
  SQL dialect, the delivery attempt queue) are definitions whose doc comment
  starts with "Modelled from the spec".
-/

namespace Apcore

/-! ## Go values -/

/-- A Go `error` value that is not nil, identified by its message. -/
structure GoError where
  text : String
deriving DecidableEq, Repr

/-- Smallest value of Go's `int` (64-bit). -/
def minInt : Int := -(2 ^ 63)

/-- Largest value of Go's `int` (64-bit). -/
def maxInt : Int := 2 ^ 63 - 1

/-- Reduction of a mathematical integer to Go's `int`: two's-complement
wrap-around on 64 bits. -/
def wrapInt (x : Int) : Int := (x + 2 ^ 63) % 2 ^ 64 - 2 ^ 63

/-- Go's `a - b` on `int`. -/
def intSub (a b : Int) : Int := wrapInt (a - b)

/-- The dynamic value held by an `interface{}` at the `database/sql` boundary:
the `driver.Value` types, and `time.Duration`, whose dynamic type is distinct
from `int64`. -/
inductive GoValue where
  | null
  | int64 (i : Int)
  | float64 (bits : Nat)
  | bool (b : Bool)
  | bytes (b : List UInt8)
  | string (s : String)
  | time (unixNano : Int)
  | duration (d : Int)
deriving DecidableEq, Repr

/-- JSON documents, as `encoding/json` decodes them into `interface{}`. -/
inductive JSON where
  | null
  | bool (b : Bool)
  | number (n : Int)
  | string (s : String)
  | array (xs : List JSON)
  | object (kvs : List (String × JSON))

/-- Go's `map[string]interface{}` holding a decoded JSON object. -/
abbrev JSONMap := List (String × JSON)

/-- A go-fed `vocab.Type` value: its type name and its JSON-LD properties. -/
structure VocabValue where
  typeName : String
  props : JSONMap

/-- The fields of `net/url`'s `URL` that the repository reads or writes. -/
structure url.URL where
  Scheme : String
  Host : String
  Path : String
  RawQuery : String
  Fragment : String
deriving DecidableEq, Repr

/-- Model of `(*url.URL).String` of `net/url`, for URLs without user info or
opaque part and whose components need no escaping; `buf` is the string
builder. -/
def url.URL.String (u : url.URL) : String :=
  let buf := if u.Scheme ≠ "" then u.Scheme ++ ":" else ""
  let buf :=
    if u.Scheme ≠ "" ∨ u.Host ≠ "" then
      (if u.Host ≠ "" ∨ u.Path ≠ "" then buf ++ "//" else buf) ++ u.Host
    else buf
  let buf := if u.Path ≠ "" ∧ u.Path.front ≠ '/' ∧ u.Host ≠ "" then buf ++ "/" else buf
  let buf :=
    if buf = "" ∧ ((u.Path.splitOn "/").headD "").contains ':' then buf ++ "./" else buf
  let buf := buf ++ u.Path
  let buf := if u.RawQuery ≠ "" then buf ++ "?" ++ u.RawQuery else buf
  if u.Fragment ≠ "" then buf ++ "#" ++ u.Fragment else buf

/-- Functions of the Go standard library and of go-fed called by the
repository. -/
structure Lib where
  /-- The conversion `database/sql` applies when scanning a column into `*bool`. -/
  convertAssignBool : GoValue → Except GoError Bool
  /-- The conversion `database/sql` applies when scanning a column into `*int`. -/
  convertAssignInt : GoValue → Except GoError Int
  /-- The error `Rows.Scan` builds around a failed column conversion. -/
  scanError : Nat → GoError → GoError
  /-- `json.Unmarshal` into a `map[string]interface{}`. -/
  jsonUnmarshal : List UInt8 → Except GoError JSONMap
  /-- `json.Marshal` of a `map[string]interface{}`. -/
  jsonMarshal : JSONMap → Except GoError (List UInt8)
  /-- `streams.Serialize`. -/
  streamsSerialize : Option VocabValue → Except GoError JSONMap
  /-- `Resolve` of a JSON resolver whose only callback takes an
  `ActivityStreamsOrderedCollectionPage`: the value handed to the callback. -/
  resolveOrderedCollectionPage : JSONMap → Except GoError VocabValue
  /-- `url.Parse`. -/
  urlParse : String → Except GoError url.URL
  /-- `streams.ToType`: the value and the error it returns. -/
  streamsToType : JSONMap → Option VocabValue × Option GoError
  /-- `Resolve` of a JSON resolver whose only callback takes an
  `ActivityStreamsPerson`: the value handed to the callback. -/
  resolvePerson : JSONMap → Except GoError VocabValue
  /-- `Resolve` of a JSON resolver whose only callback takes an
  `ActivityStreamsOrderedCollection`: the value handed to the callback. -/
  resolveOrderedCollection : JSONMap → Except GoError VocabValue

/-! ## `models/serialization.go` -/

/-- `marshal` takes any ActivityStreams type and serializes it to JSON. -/
def marshal (lib : Lib) (v : Option VocabValue) : Except GoError (List UInt8) :=
  match lib.streamsSerialize v with
  | .error err => .error err
  | .ok m =>
    match lib.jsonMarshal m with
    | .error err => .error err
    | .ok b => .ok b

/-- `unmarshal` attempts to deserialize JSON bytes into a value. -/
def unmarshal (lib : Lib) (maybeByte : GoValue) : Except GoError JSONMap :=
  match maybeByte with
  | .bytes b => lib.jsonUnmarshal b
  | _ => .error ⟨"failed to assert scan to []byte type"⟩

/-- One row of a result set: its columns. -/
abbrev Row := List GoValue

/-- A `*sql.Rows` seen by its reader: the rows `Next` delivers before it
returns false, and what `Err` returns afterwards. -/
structure Rows where
  rows : List Row
  err : Option GoError
deriving DecidableEq, Repr

/-- The error `Rows.Scan` returns when the number of destinations differs
from the number of columns. -/
def scanArityError (want got : Nat) : GoError :=
  ⟨"sql: expected " ++ toString want ++ " destination arguments in Scan, not " ++ toString got⟩

/-- `Scan` of a row into one destination; `conv` is the conversion for the
destination's type, given the destination's old value. -/
def scan1 {α : Type} (lib : Lib) (conv : α → GoValue → α × Option GoError)
    (r : Row) (a : α) : α × Option GoError :=
  match r with
  | [c] =>
    match conv a c with
    | (a', some err) => (a', some (lib.scanError 0 err))
    | (a', none) => (a', none)
  | _ => (a, some (scanArityError r.length 1))

/-- `Scan` of a row into two destinations, left to right, stopping at the first
conversion that fails. -/
def scan2 {α β : Type} (lib : Lib) (convA : α → GoValue → α × Option GoError)
    (convB : β → GoValue → β × Option GoError)
    (r : Row) (d : α × β) : (α × β) × Option GoError :=
  match r with
  | [c1, c2] =>
    match convA d.1 c1 with
    | (a', some err) => ((a', d.2), some (lib.scanError 0 err))
    | (a', none) =>
      match convB d.2 c2 with
      | (b', some err) => ((a', b'), some (lib.scanError 1 err))
      | (b', none) => ((a', b'), none)
  | _ => (d, some (scanArityError r.length 2))

/-- The error of `enforceOneRow` for a second row. -/
def multipleRowsError (debugname : String) : GoError :=
  ⟨debugname ++ ": multiple database rows retrieved when enforcing one row"⟩

/-- The `for r.Next()` loop of `enforceOneRow`: `rows` are the rows still to
be delivered, `n` the counter, `s` the variables the callback writes to. -/
def enforceOneRowLoop {σ : Type} (debugname : String)
    (fn : Row → σ → σ × Option GoError) (rerr : Option GoError) :
    List Row → Int → σ → σ × Option GoError
  | [], _, s => (s, rerr)
  | row :: rest, n, s =>
    if n > 0 then (s, some (multipleRowsError debugname))
    else
      match fn row s with
      | (s', some err) => (s', some err)
      | (s', none) => enforceOneRowLoop debugname fn rerr rest (wrapInt (n + 1)) s'

/-- `enforceOneRow` ensures that there is only one row in the `*sql.Rows`. -/
def enforceOneRow {σ : Type} (r : Rows) (debugname : String)
    (fn : Row → σ → σ × Option GoError) (s : σ) : σ × Option GoError :=
  enforceOneRowLoop debugname fn r.err r.rows 0 s

/-- Constants of go-fed's `pub.OnFollowBehavior`. They are the case labels of
one `switch`, so a Go program that compiles has them pairwise distinct. -/
structure PubConsts where
  OnFollowDoNothing : Int
  OnFollowAutomaticallyAccept : Int
  OnFollowAutomaticallyReject : Int
deriving DecidableEq, Repr

/-- The three `pub.OnFollowBehavior` constants are pairwise distinct. -/
def PubConsts.Distinct (k : PubConsts) : Prop :=
  k.OnFollowAutomaticallyAccept ≠ k.OnFollowAutomaticallyReject ∧
  k.OnFollowAutomaticallyAccept ≠ k.OnFollowDoNothing ∧
  k.OnFollowAutomaticallyReject ≠ k.OnFollowDoNothing

instance (k : PubConsts) : Decidable k.Distinct := by
  unfold PubConsts.Distinct; infer_instance

/-- The constants as go-fed declares them with `iota`. -/
def goFedConsts : PubConsts := ⟨0, 1, 2⟩

/-- `OnFollowBehavior` is a wrapper around `pub.OnFollowBehavior`, an `int`. -/
abbrev OnFollowBehavior := Int

def onFollowAlwaysAccept : String := "ALWAYS_ACCEPT"

def onFollowAlwaysReject : String := "ALWAYS_REJECT"

def onFollowManual : String := "MANUAL"

/-- `OnFollowBehavior.Value`. -/
def OnFollowBehavior.Value (k : PubConsts) (o : OnFollowBehavior) : GoValue × Option GoError :=
  if o = k.OnFollowAutomaticallyAccept then (.string onFollowAlwaysAccept, none)
  else if o = k.OnFollowAutomaticallyReject then (.string onFollowAlwaysReject, none)
  else if o = k.OnFollowDoNothing then (.string onFollowManual, none)
  else (.string onFollowManual, none)

/-- `(*OnFollowBehavior).Scan`. -/
def OnFollowBehavior.Scan (k : PubConsts) (o : OnFollowBehavior) (src : GoValue) :
    OnFollowBehavior × Option GoError :=
  match src with
  | .string s =>
    if s = onFollowAlwaysAccept then (k.OnFollowAutomaticallyAccept, none)
    else if s = onFollowAlwaysReject then (k.OnFollowAutomaticallyReject, none)
    else if s = onFollowManual then (k.OnFollowDoNothing, none)
    else (k.OnFollowDoNothing, none)
  | _ => (o, some ⟨"failed to assert scan to string type"⟩)

/-- `ActivityStreamsOrderedCollection` wraps a `vocab.ActivityStreamsOrderedCollection`;
`inner` is the embedded field (`none` is the nil interface). -/
structure ActivityStreamsOrderedCollection where
  inner : Option VocabValue

/-- `ActivityStreamsOrderedCollection.Value`. -/
def ActivityStreamsOrderedCollection.Value (lib : Lib) (a : ActivityStreamsOrderedCollection) :
    GoValue × Option GoError :=
  match marshal lib a.inner with
  | .error err => (.bytes [], some err)
  | .ok b => (.bytes b, none)

/-- `ActivityStreamsOrderedCollectionPage` wraps a
`vocab.ActivityStreamsOrderedCollectionPage`; `inner` is the embedded field
(`none` is the nil interface). -/
structure ActivityStreamsOrderedCollectionPage where
  inner : Option VocabValue

/-- `(*ActivityStreamsOrderedCollectionPage).Scan`. The resolver is built from
one callback of a supported signature, so `NewJSONResolver` does not fail. -/
def ActivityStreamsOrderedCollectionPage.Scan (lib : Lib)
    (a : ActivityStreamsOrderedCollectionPage) (src : GoValue) :
    ActivityStreamsOrderedCollectionPage × Option GoError :=
  match unmarshal lib src with
  | .error err => (a, some err)
  | .ok m =>
    match lib.resolveOrderedCollectionPage m with
    | .error err => (a, some err)
    | .ok oc => (⟨some oc⟩, none)

/-- `NullDuration` can handle nullable `time.Duration` values in the database. -/
structure NullDuration where
  Duration : Int
  Valid : Bool
deriving DecidableEq, Repr

/-- `NullDuration.Value`. -/
def NullDuration.Value (n : NullDuration) : GoValue × Option GoError :=
  if !n.Valid then (.null, none)
  else (.duration n.Duration, none)

/-- `(*NullDuration).Scan`. -/
def NullDuration.Scan (n : NullDuration) (src : GoValue) : NullDuration × Option GoError :=
  match src with
  | .null => ({ Duration := 0, Valid := false }, none)
  | .int64 t => ({ Duration := t, Valid := true }, none)
  | _ => (n, some ⟨"failed to assert scan to int64 type"⟩)

/-- `URL` handles serializing/deserializing `*url.URL` types into databases;
`inner` is the embedded pointer (`none` is nil). -/
structure URL where
  inner : Option url.URL
deriving DecidableEq, Repr

/-- `(*URL).Scan`. -/
def URL.Scan (lib : Lib) (u : URL) (src : GoValue) : URL × Option GoError :=
  match src with
  | .string s =>
    match lib.urlParse s with
    | .error err => (⟨none⟩, some err)
    | .ok v => (⟨some v⟩, none)
  | _ => (u, some ⟨"failed to assert scan to string type"⟩)

/-- `ActivityStreams` is a wrapper around any ActivityStreams type; `inner` is
the embedded `vocab.Type` (`none` is the nil interface). -/
structure ActivityStreams where
  inner : Option VocabValue

/-- `ActivityStreams.Value`. -/
def ActivityStreams.Value (lib : Lib) (a : ActivityStreams) : GoValue × Option GoError :=
  match marshal lib a.inner with
  | .error err => (.bytes [], some err)
  | .ok b => (.bytes b, none)

/-- `(*ActivityStreams).Scan`. -/
def ActivityStreams.Scan (lib : Lib) (a : ActivityStreams) (src : GoValue) :
    ActivityStreams × Option GoError :=
  match unmarshal lib src with
  | .error err => (a, some err)
  | .ok m =>
    match lib.streamsToType m with
    | (t, err) => (⟨t⟩, err)

/-- `ActivityStreamsPerson` wraps a `vocab.ActivityStreamsPerson`; `inner` is the
embedded field (`none` is the nil interface). -/
structure ActivityStreamsPerson where
  inner : Option VocabValue

/-- `ActivityStreamsPerson.Value`. -/
def ActivityStreamsPerson.Value (lib : Lib) (a : ActivityStreamsPerson) :
    GoValue × Option GoError :=
  match marshal lib a.inner with
  | .error err => (.bytes [], some err)
  | .ok b => (.bytes b, none)

/-- `(*ActivityStreamsPerson).Scan`. The resolver is built from one callback of
a supported signature, so `NewJSONResolver` does not fail. -/
def ActivityStreamsPerson.Scan (lib : Lib) (a : ActivityStreamsPerson) (src : GoValue) :
    ActivityStreamsPerson × Option GoError :=
  match unmarshal lib src with
  | .error err => (a, some err)
  | .ok m =>
    match lib.resolvePerson m with
    | .error err => (a, some err)
    | .ok p => (⟨some p⟩, none)

/-- `(*ActivityStreamsOrderedCollection).Scan`. The resolver is built from one
callback of a supported signature, so `NewJSONResolver` does not fail. -/
def ActivityStreamsOrderedCollection.Scan (lib : Lib) (a : ActivityStreamsOrderedCollection)
    (src : GoValue) : ActivityStreamsOrderedCollection × Option GoError :=
  match unmarshal lib src with
  | .error err => (a, some err)
  | .ok m =>
    match lib.resolveOrderedCollection m with
    | .error err => (a, some err)
    | .ok oc => (⟨some oc⟩, none)

/-- `ActivityStreamsOrderedCollectionPage.Value`. -/
def ActivityStreamsOrderedCollectionPage.Value (lib : Lib)
    (a : ActivityStreamsOrderedCollectionPage) : GoValue × Option GoError :=
  match marshal lib a.inner with
  | .error err => (.bytes [], some err)
  | .ok b => (.bytes b, none)

/-- `URL.Value`; the embedded pointer is not nil. -/
def URL.Value (u : url.URL) : GoValue × Option GoError :=
  (.string u.String, none)

/-! ## `database/sql` handles -/

/-- A prepared `*sql.Stmt`: the statement text it was prepared from. -/
structure Stmt where
  text : String
deriving DecidableEq, Repr

/-- A value bound to a positional parameter of a statement. An
`ActivityStreamsOrderedCollection` is a `driver.Valuer`: the driver sends what
its `Value` method returns. -/
inductive Arg where
  | str (s : String)
  | int (i : Int)
  | collection (oc : ActivityStreamsOrderedCollection)
  | bytes (b : List UInt8)

/-- Whether a statement was run with `QueryContext` or with `ExecContext`. -/
inductive CallKind where
  | query
  | exec
deriving DecidableEq, Repr

/-- One execution of a prepared statement. -/
structure Call where
  kind : CallKind
  stmt : Stmt
  args : List Arg

/-- The database behind a transaction: what a statement returns, given the
statements already executed in the transaction. -/
structure Driver where
  query : List Call → Stmt → List Arg → Except GoError Rows
  exec : List Call → Stmt → List Arg → Option GoError

/-- Lifecycle of a `*sql.Tx`. -/
inductive TxStatus where
  | active
  | committed
  | rolledBack
deriving DecidableEq, Repr

/-- A `*sql.Tx`: its database, its lifecycle status and the statements executed
in it so far, oldest first. -/
structure Tx where
  driver : Driver
  status : TxStatus
  calls : List Call

/-- `tx.Stmt(stmt).QueryContext(c, args...)`. -/
def Tx.QueryContext (tx : Tx) (stmt : Stmt) (args : List Arg) : Except GoError Rows × Tx :=
  (tx.driver.query tx.calls stmt args, { tx with calls := tx.calls ++ [⟨.query, stmt, args⟩] })

/-- `tx.Stmt(stmt).ExecContext(c, args...)`; the `sql.Result` is dropped by
every caller. -/
def Tx.ExecContext (tx : Tx) (stmt : Stmt) (args : List Arg) : Option GoError × Tx :=
  (tx.driver.exec tx.calls stmt args, { tx with calls := tx.calls ++ [⟨.exec, stmt, args⟩] })

/-! ## `models/outboxes.go`

In `return b, enforceOneRow(rows, ..., func ... { return r.Scan(&b) })` the
named result `b` is read after `enforceOneRow` has returned, as the gc compiler
orders it: the results are the values the callback left in the variables. -/

/-- `Outboxes` is a Model that provides additional database methods for
Outboxes. -/
structure Outboxes where
  insertOutbox : Stmt
  outboxContainsForActor : Stmt
  outboxContains : Stmt
  getOutbox : Stmt
  getPublicOutbox : Stmt
  getLastPage : Stmt
  getPublicLastPage : Stmt
  prependOutboxItem : Stmt
  deleteOutboxItem : Stmt
  outboxForInbox : Stmt
deriving DecidableEq, Repr

/-- Scanning a column into a `*bool` destination. -/
def boolDest (lib : Lib) (b : Bool) (src : GoValue) : Bool × Option GoError :=
  match lib.convertAssignBool src with
  | .error err => (b, some err)
  | .ok v => (v, none)

/-- Scanning a column into a `*int` destination. -/
def intDest (lib : Lib) (i : Int) (src : GoValue) : Int × Option GoError :=
  match lib.convertAssignInt src with
  | .error err => (i, some err)
  | .ok v => (v, none)

/-- `Create` a new outbox for the given actor. -/
def Outboxes.Create (i : Outboxes) (tx : Tx) (actor : url.URL)
    (outbox : ActivityStreamsOrderedCollection) : Option GoError × Tx :=
  tx.ExecContext i.insertOutbox [.str actor.String, .collection outbox]

/-- `ContainsForActor` returns true if the item is in the actor's outbox's
collection. -/
def Outboxes.ContainsForActor (lib : Lib) (i : Outboxes) (tx : Tx) (actor item : url.URL) :
    (Bool × Option GoError) × Tx :=
  let b : Bool := false
  match tx.QueryContext i.outboxContainsForActor [.str actor.String, .str item.String] with
  | (.error err, tx') => ((b, some err), tx')
  | (.ok rows, tx') =>
    (enforceOneRow rows "Outboxes.ContainsForActor" (fun r b => scan1 lib (boolDest lib) r b) b, tx')

/-- `Contains` returns true if the item is in the outbox's collection. -/
def Outboxes.Contains (lib : Lib) (i : Outboxes) (tx : Tx) (inbox item : url.URL) :
    (Bool × Option GoError) × Tx :=
  let b : Bool := false
  match tx.QueryContext i.outboxContains [.str inbox.String, .str item.String] with
  | (.error err, tx') => ((b, some err), tx')
  | (.ok rows, tx') =>
    (enforceOneRow rows "Outboxes.Contains" (fun r b => scan1 lib (boolDest lib) r b) b, tx')

/-- `GetPage` returns an OrderedCollectionPage of the Outbox. The range of
elements retrieved are [min, max). -/
def Outboxes.GetPage (lib : Lib) (i : Outboxes) (tx : Tx) (outbox : url.URL) (min max : Int) :
    (ActivityStreamsOrderedCollectionPage × Option GoError) × Tx :=
  let page : ActivityStreamsOrderedCollectionPage := ⟨none⟩
  match tx.QueryContext i.getOutbox [.str outbox.String, .int min, .int (intSub max 1)] with
  | (.error err, tx') => ((page, some err), tx')
  | (.ok rows, tx') =>
    (enforceOneRow rows "Outboxes.GetPage"
      (fun r page => scan1 lib (ActivityStreamsOrderedCollectionPage.Scan lib) r page) page, tx')

/-- `GetPublicPage` returns an OrderedCollectionPage of outbox items that are
public only. The range of elements retrieved are [min, max). -/
def Outboxes.GetPublicPage (lib : Lib) (i : Outboxes) (tx : Tx) (outbox : url.URL)
    (min max : Int) : (ActivityStreamsOrderedCollectionPage × Option GoError) × Tx :=
  let page : ActivityStreamsOrderedCollectionPage := ⟨none⟩
  match tx.QueryContext i.getPublicOutbox [.str outbox.String, .int min, .int (intSub max 1)] with
  | (.error err, tx') => ((page, some err), tx')
  | (.ok rows, tx') =>
    (enforceOneRow rows "Outboxes.GetPublicPage"
      (fun r page => scan1 lib (ActivityStreamsOrderedCollectionPage.Scan lib) r page) page, tx')

/-- `GetLastPage` returns the last OrderedCollectionPage of the Outbox. -/
def Outboxes.GetLastPage (lib : Lib) (i : Outboxes) (tx : Tx) (outbox : url.URL) (n : Int) :
    ((ActivityStreamsOrderedCollectionPage × Int) × Option GoError) × Tx :=
  let page : ActivityStreamsOrderedCollectionPage := ⟨none⟩
  let startIdx : Int := 0
  match tx.QueryContext i.getLastPage [.str outbox.String, .int n] with
  | (.error err, tx') => (((page, startIdx), some err), tx')
  | (.ok rows, tx') =>
    (enforceOneRow rows "Outboxes.GetPage"
      (fun r d => scan2 lib (ActivityStreamsOrderedCollectionPage.Scan lib) (intDest lib) r d)
      (page, startIdx), tx')

/-- `GetPublicLastPage` returns the last OrderedCollectionPage of outbox items
that are public only. -/
def Outboxes.GetPublicLastPage (lib : Lib) (i : Outboxes) (tx : Tx) (outbox : url.URL)
    (n : Int) : ((ActivityStreamsOrderedCollectionPage × Int) × Option GoError) × Tx :=
  let page : ActivityStreamsOrderedCollectionPage := ⟨none⟩
  let startIdx : Int := 0
  match tx.QueryContext i.getPublicLastPage [.str outbox.String, .int n] with
  | (.error err, tx') => (((page, startIdx), some err), tx')
  | (.ok rows, tx') =>
    (enforceOneRow rows "Outboxes.GetPublicPage"
      (fun r d => scan2 lib (ActivityStreamsOrderedCollectionPage.Scan lib) (intDest lib) r d)
      (page, startIdx), tx')

/-- `PrependOutboxItem` prepends the item to the outbox's ordered items list. -/
def Outboxes.PrependOutboxItem (i : Outboxes) (tx : Tx) (outbox item : url.URL) :
    Option GoError × Tx :=
  tx.ExecContext i.prependOutboxItem [.str outbox.String, .str item.String]

/-- `DeleteOutboxItem` removes the item from the outbox's ordered items list. -/
def Outboxes.DeleteOutboxItem (i : Outboxes) (tx : Tx) (outbox item : url.URL) :
    Option GoError × Tx :=
  tx.ExecContext i.deleteOutboxItem [.str outbox.String, .str item.String]

/-- `OutboxForInbox` returns the outbox for the inbox. -/
def Outboxes.OutboxForInbox (lib : Lib) (i : Outboxes) (tx : Tx) (inbox : url.URL) :
    (URL × Option GoError) × Tx :=
  let outbox : URL := ⟨none⟩
  match tx.QueryContext i.outboxForInbox [.str inbox.String] with
  | (.error err, tx') => ((outbox, some err), tx')
  | (.ok rows, tx') =>
    (enforceOneRow rows "Outboxes.OutboxForInbox"
      (fun r outbox => scan1 lib (URL.Scan lib) r outbox) outbox, tx')

/-- The query `stmt` with `args`, run next in `tx`, succeeds with result set
`rows`. -/
def Tx.yields (tx : Tx) (stmt : Stmt) (args : List Arg) (rows : Rows) : Prop :=
  tx.driver.query tx.calls stmt args = .ok rows

/-- The query `stmt` with `args`, run next in `tx`, fails with `e`. -/
def Tx.queryFails (tx : Tx) (stmt : Stmt) (args : List Arg) (e : GoError) : Prop :=
  tx.driver.query tx.calls stmt args = .error e

/-- The exec of `stmt` with `args`, run next in `tx`, fails with `e`. -/
def Tx.execFails (tx : Tx) (stmt : Stmt) (args : List Arg) (e : GoError) : Prop :=
  tx.driver.exec tx.calls stmt args = some e

/-! ## `models/sql_dialect.go`: documented parameters of the outbox statements -/

/-- The Go types named in the `Params` comments of `SqlDialect`. -/
inductive ParamType where
  | string
  | bytes
  | int
deriving DecidableEq, Repr

/-- `InsertOutbox`: Params ActorID string, Outbox []byte. -/
def SqlDialect.InsertOutbox.Params : List (String × ParamType) :=
  [("ActorID", .string), ("Outbox", .bytes)]

/-- `OutboxContainsForActor`: Params ActorID string, Item string. -/
def SqlDialect.OutboxContainsForActor.Params : List (String × ParamType) :=
  [("ActorID", .string), ("Item", .string)]

/-- `OutboxContains`: Params OutboxID string, Item string. -/
def SqlDialect.OutboxContains.Params : List (String × ParamType) :=
  [("OutboxID", .string), ("Item", .string)]

/-- `GetOutbox`: Params Outbox string, Min int, Max int. -/
def SqlDialect.GetOutbox.Params : List (String × ParamType) :=
  [("Outbox", .string), ("Min", .int), ("Max", .int)]

/-- `GetPublicOutbox`: Params Outbox string, Min int, Max int. -/
def SqlDialect.GetPublicOutbox.Params : List (String × ParamType) :=
  [("Outbox", .string), ("Min", .int), ("Max", .int)]

/-- `GetOutboxLastPage`: Params Outbox string, N int. -/
def SqlDialect.GetOutboxLastPage.Params : List (String × ParamType) :=
  [("Outbox", .string), ("N", .int)]

/-- `GetPublicOutboxLastPage`: Params Outbox string, N int. -/
def SqlDialect.GetPublicOutboxLastPage.Params : List (String × ParamType) :=
  [("Outbox", .string), ("N", .int)]

/-- `PrependOutboxItem`: Params Outbox string, Item string. -/
def SqlDialect.PrependOutboxItem.Params : List (String × ParamType) :=
  [("Outbox", .string), ("Item", .string)]

/-- `DeleteOutboxItem`: Params Outbox string, Item string. -/
def SqlDialect.DeleteOutboxItem.Params : List (String × ParamType) :=
  [("Outbox", .string), ("Item", .string)]

/-- `OutboxForInbox`: Params Inbox string. -/
def SqlDialect.OutboxForInbox.Params : List (String × ParamType) :=
  [("Inbox", .string)]

/-- The Go type of the value the driver receives for a bound argument; for an
`ActivityStreamsOrderedCollection` that is the `[]byte` its `Value` returns. -/
def Arg.paramType : Arg → ParamType
  | .str _ => .string
  | .int _ => .int
  | .collection _ => .bytes
  | .bytes _ => .bytes

/-- The types of the arguments of a call, in order. -/
def Call.paramTypes (c : Call) : List ParamType := c.args.map Arg.paramType

/-- The documented types of a statement's parameters, in order. -/
def documentedTypes (params : List (String × ParamType)) : List ParamType :=
  params.map Prod.snd

/-- The transaction after one more statement has been executed in it: same
database, same lifecycle status, the call appended to its log. -/
def Tx.afterCall (tx : Tx) (c : Call) : Tx :=
  { driver := tx.driver, status := tx.status, calls := tx.calls ++ [c] }

/-! ## go-fed values built by `services/activitystreams.go`

The constructors and setters of go-fed's `streams` and `vocab` packages used
by `emptyOrderedCollection`: a constructor returns a value with nothing set, a
setter replaces the one property it names. -/

/-- A go-fed property that holds an IRI once `SetIRI` was called
(`JSONLDIdProperty`, `ActivityStreamsFirstProperty`,
`ActivityStreamsLastProperty`). -/
structure vocab.IRIProperty where
  iri : Option url.URL
deriving DecidableEq, Repr

/-- `ActivityStreamsTotalItemsProperty`: the integer given to `Set`, if any. -/
structure vocab.TotalItemsProperty where
  value : Option Int
deriving DecidableEq, Repr

/-- `ActivityStreamsOrderedItemsProperty`: the IRIs of its entries, in order. -/
structure vocab.OrderedItemsProperty where
  entries : List url.URL
deriving DecidableEq, Repr

/-- The properties of a `vocab.ActivityStreamsOrderedCollection` that
`emptyOrderedCollection` sets; `none` is a property that was never set. -/
structure vocab.OrderedCollection where
  JSONLDId : Option vocab.IRIProperty
  ActivityStreamsTotalItems : Option vocab.TotalItemsProperty
  ActivityStreamsOrderedItems : Option vocab.OrderedItemsProperty
  ActivityStreamsFirst : Option vocab.IRIProperty
  ActivityStreamsLast : Option vocab.IRIProperty
deriving DecidableEq, Repr

/-- `streams.NewActivityStreamsOrderedCollection`. -/
def streams.NewActivityStreamsOrderedCollection : vocab.OrderedCollection :=
  ⟨none, none, none, none, none⟩

/-- `streams.NewJSONLDIdProperty`. -/
def streams.NewJSONLDIdProperty : vocab.IRIProperty := ⟨none⟩

/-- `streams.NewActivityStreamsFirstProperty`. -/
def streams.NewActivityStreamsFirstProperty : vocab.IRIProperty := ⟨none⟩

/-- `streams.NewActivityStreamsLastProperty`. -/
def streams.NewActivityStreamsLastProperty : vocab.IRIProperty := ⟨none⟩

/-- `streams.NewActivityStreamsTotalItemsProperty`. -/
def streams.NewActivityStreamsTotalItemsProperty : vocab.TotalItemsProperty := ⟨none⟩

/-- `streams.NewActivityStreamsOrderedItemsProperty`. -/
def streams.NewActivityStreamsOrderedItemsProperty : vocab.OrderedItemsProperty := ⟨[]⟩

/-- `SetIRI` of an IRI-valued property. -/
def vocab.IRIProperty.SetIRI (_p : vocab.IRIProperty) (v : url.URL) : vocab.IRIProperty :=
  ⟨some v⟩

/-- `Set` of the totalItems property. -/
def vocab.TotalItemsProperty.Set (_p : vocab.TotalItemsProperty) (v : Int) :
    vocab.TotalItemsProperty :=
  ⟨some v⟩

/-- `SetJSONLDId`. -/
def vocab.OrderedCollection.SetJSONLDId (oc : vocab.OrderedCollection)
    (p : vocab.IRIProperty) : vocab.OrderedCollection :=
  { oc with JSONLDId := some p }

/-- `SetActivityStreamsTotalItems`. -/
def vocab.OrderedCollection.SetActivityStreamsTotalItems (oc : vocab.OrderedCollection)
    (p : vocab.TotalItemsProperty) : vocab.OrderedCollection :=
  { oc with ActivityStreamsTotalItems := some p }

/-- `SetActivityStreamsOrderedItems`. -/
def vocab.OrderedCollection.SetActivityStreamsOrderedItems (oc : vocab.OrderedCollection)
    (p : vocab.OrderedItemsProperty) : vocab.OrderedCollection :=
  { oc with ActivityStreamsOrderedItems := some p }

/-- `SetActivityStreamsFirst`. -/
def vocab.OrderedCollection.SetActivityStreamsFirst (oc : vocab.OrderedCollection)
    (p : vocab.IRIProperty) : vocab.OrderedCollection :=
  { oc with ActivityStreamsFirst := some p }

/-- `SetActivityStreamsLast`. -/
def vocab.OrderedCollection.SetActivityStreamsLast (oc : vocab.OrderedCollection)
    (p : vocab.IRIProperty) : vocab.OrderedCollection :=
  { oc with ActivityStreamsLast := some p }

/-- `emptyOrderedCollection` of `services/activitystreams.go`. -/
def emptyOrderedCollection (id first last : url.URL) : vocab.OrderedCollection :=
  let oc := streams.NewActivityStreamsOrderedCollection
  -- id
  let idProp := streams.NewJSONLDIdProperty
  let idProp := idProp.SetIRI id
  let oc := oc.SetJSONLDId idProp
  -- totalItems
  let tiProp := streams.NewActivityStreamsTotalItemsProperty
  let tiProp := tiProp.Set 0
  let oc := oc.SetActivityStreamsTotalItems tiProp
  -- orderedItems
  let oiProp := streams.NewActivityStreamsOrderedItemsProperty
  let oc := oc.SetActivityStreamsOrderedItems oiProp
  -- first
  let firstProp := streams.NewActivityStreamsFirstProperty
  let firstProp := firstProp.SetIRI first
  let oc := oc.SetActivityStreamsFirst firstProp
  -- last
  let lastProp := streams.NewActivityStreamsLastProperty
  let lastProp := lastProp.SetIRI last
  let oc := oc.SetActivityStreamsLast lastProp
  oc

/-! ## `example/app.go` -/

/-- `App.ScopePermitsPostOutbox`. -/
def App.ScopePermitsPostOutbox (scope : String) : Bool × Option GoError :=
  (scope == "postOutbox" || scope == "all", none)

/-- `App.ScopePermitsPrivateGetInbox`. -/
def App.ScopePermitsPrivateGetInbox (scope : String) : Bool × Option GoError :=
  (scope == "getInbox" || scope == "all", none)

/-- `App.ScopePermitsPrivateGetOutbox`. -/
def App.ScopePermitsPrivateGetOutbox (scope : String) : Bool × Option GoError :=
  (scope == "getOutbox" || scope == "all", none)

/-! ## `framework/config.go`

The structures of package `framework/config`, with the fields this file
assigns; every other field keeps its zero value. -/

/-- `config.ServerConfig`. -/
structure config.ServerConfig where
  Host : String
  CookieMaxAge : Int
  SaltSize : Int
  BCryptStrength : Int
  RSAKeySize : Int
deriving DecidableEq, Repr

/-- `config.OAuth2Config`. -/
structure config.OAuth2Config where
  AccessTokenExpiry : Int
  RefreshTokenExpiry : Int
deriving DecidableEq, Repr

/-- `config.PostgresConfig`: `defaultPostgresConfig` sets none of its fields. -/
structure config.PostgresConfig where
deriving DecidableEq, Repr

/-- `config.DatabaseConfig`. -/
structure config.DatabaseConfig where
  DatabaseKind : String
  MaxIdleConns : Int
  DefaultCollectionPageSize : Int
  PostgresConfig : config.PostgresConfig
deriving DecidableEq, Repr

/-- `config.HttpSignaturesConfig`. -/
structure config.HttpSignaturesConfig where
  Algorithms : List String
  DigestAlgorithm : String
  GetHeaders : List String
  PostHeaders : List String
deriving DecidableEq, Repr

/-- `config.ActivityPubConfig`. -/
structure config.ActivityPubConfig where
  ClockTimezone : String
  OutboundRateLimitQPS : Int
  OutboundRateLimitBurst : Int
  HttpSignaturesConfig : config.HttpSignaturesConfig
  MaxInboxForwardingRecursionDepth : Int
  MaxDeliveryRecursionDepth : Int
deriving DecidableEq, Repr

/-- `config.Config`. -/
structure config.Config where
  ServerConfig : config.ServerConfig
  OAuthConfig : config.OAuth2Config
  DatabaseConfig : config.DatabaseConfig
  ActivityPubConfig : config.ActivityPubConfig
deriving DecidableEq, Repr

def postgresDB : String := "postgres"

/-- `defaultServerConfig`; `bcryptDefaultCost` is `bcrypt.DefaultCost` of
`golang.org/x/crypto/bcrypt`. -/
def defaultServerConfig (bcryptDefaultCost : Int) : config.ServerConfig :=
  { Host := ""
    CookieMaxAge := 86400
    SaltSize := 32
    BCryptStrength := bcryptDefaultCost
    RSAKeySize := 1024 }

/-- `defaultOAuth2Config`. -/
def defaultOAuth2Config : config.OAuth2Config :=
  { AccessTokenExpiry := 3600
    RefreshTokenExpiry := 7200 }

/-- `defaultPostgresConfig`. -/
def defaultPostgresConfig : config.PostgresConfig := {}

/-- `defaultDatabaseConfig`: the configuration and the error it returns. -/
def defaultDatabaseConfig (dbkind : String) : config.DatabaseConfig × Option GoError :=
  let d : config.DatabaseConfig :=
    { DatabaseKind := dbkind
      MaxIdleConns := 2
      DefaultCollectionPageSize := 10
      PostgresConfig := {} }
  if dbkind ≠ postgresDB then
    (d, some ⟨"unsupported database kind: " ++ dbkind⟩)
  else
    ({ d with PostgresConfig := defaultPostgresConfig }, none)

/-- `defaultHttpSignaturesConfig`. -/
def defaultHttpSignaturesConfig : config.HttpSignaturesConfig :=
  { Algorithms := ["sha256", "sha512"]
    DigestAlgorithm := "SHA-256"
    GetHeaders := ["(request-target)", "Date", "Digest"]
    PostHeaders := ["(request-target)", "Date", "Digest"] }

/-- `defaultActivityPubConfig`. -/
def defaultActivityPubConfig : config.ActivityPubConfig :=
  { ClockTimezone := "UTC"
    OutboundRateLimitQPS := 10
    OutboundRateLimitBurst := 50
    HttpSignaturesConfig := defaultHttpSignaturesConfig
    MaxInboxForwardingRecursionDepth := 50
    MaxDeliveryRecursionDepth := 50 }

/-- `defaultConfig`: the `*config.Config` (`none` is nil) and the error it
returns. -/
def defaultConfig (bcryptDefaultCost : Int) (dbkind : String) :
    Option config.Config × Option GoError :=
  match defaultDatabaseConfig dbkind with
  | (_, some err) => (none, some err)
  | (dbc, none) =>
    (some
      { ServerConfig := defaultServerConfig bcryptDefaultCost
        OAuthConfig := defaultOAuth2Config
        DatabaseConfig := dbc
        ActivityPubConfig := defaultActivityPubConfig }, none)

/-! ## Delivery attempts -/

/-- `InsertAttempt`: Params FromID string, ToActor string, Payload []byte,
State string; Returns ID string. -/
def SqlDialect.InsertAttempt.Params : List (String × ParamType) :=
  [("FromID", .string), ("ToActor", .string), ("Payload", .bytes), ("State", .string)]

/-- Modelled from the spec: the state token of a delivery attempt that was
inserted and has no outcome yet (state ∈ {pending, succeeded, failed}). -/
def attemptPending : String := "pending"

/-- Modelled from the spec: a DeliveryAttempt record, with its source actor
IRI, destination actor IRI, serialized payload and state. -/
structure DeliveryAttempt where
  fromActor : String
  toActor : String
  payload : List UInt8
  state : String
deriving DecidableEq, Repr

/-- Modelled from the spec: the operation `InsertAttempt(fromActor, toActor,
payload) → attemptID` of the Delivery Attempt Queue, whose Go method is not
among the sources. It runs the `InsertAttempt` statement of the dialect in the
caller's transaction and binds the pending state as the statement's State
parameter ("always starts in pending"). -/
def DeliveryAttempts.InsertAttempt (insertAttempt : Stmt) (tx : Tx) (fromActor toActor : url.URL)
    (payload : List UInt8) : Except GoError Rows × Tx :=
  tx.QueryContext insertAttempt
    [.str fromActor.String, .str toActor.String, .bytes payload, .str attemptPending]

/-- Modelled from the spec: the record the `InsertAttempt` statement stores for
one execution, from its four bound parameters. -/
def storedAttempt (insertAttempt : Stmt) (c : Call) : Option DeliveryAttempt :=
  if c.stmt = insertAttempt then
    match c.args with
    | [.str f, .str t, .bytes p, .str st] => some ⟨f, t, p, st⟩
    | _ => none
  else none

/-- Modelled from the spec: the delivery attempts created in a transaction, in
creation order, each in the state it was created in. -/
def createdAttempts (insertAttempt : Stmt) (calls : List Call) : List DeliveryAttempt :=
  calls.filterMap (storedAttempt insertAttempt)

/-! ## The outbox statements of the SQL dialect

The texts of the statements are produced by the dialect implementation, which
is not among the sources; their effect is modelled from the spec. -/

/-- The stored outboxes: for each outbox IRI, the IRIs of its items, newest
first. -/
abbrev OutboxStore := String → List String

/-- Modelled from the spec: the `PrependOutboxItem` statement, "prepend always
places the new item logically first". -/
def specPrependOutboxItem (st : OutboxStore) (outbox item : String) : OutboxStore :=
  fun o => if o = outbox then item :: st o else st o

/-- Modelled from the spec: the `DeleteOutboxItem` statement, "delete removes
by identity". -/
def specDeleteOutboxItem (st : OutboxStore) (outbox item : String) : OutboxStore :=
  fun o => if o = outbox then (st o).filter (fun x => x ≠ item) else st o

/-- Modelled from the spec: the `OutboxContains` statement, an "existence
check" of the item in the collection. -/
def specOutboxContains (st : OutboxStore) (outbox item : String) : Bool :=
  (st outbox).contains item

/-- The items of `l`, whose first item has position `n`, at the positions
between `lo` and `hi`, both included, in the order of `l`. -/
def itemsBetween (n : Nat) (l : List String) (lo hi : Int) : List String :=
  ((l.enumFrom n).filter (fun p => decide (lo ≤ (p.1 : Int) ∧ (p.1 : Int) ≤ hi))).map Prod.snd

/-- Modelled from the spec: the `GetOutbox` statement with parameters
(outboxIRI, min, max-1): the items at the zero-based positions from its second
parameter to its third, an inclusive upper bound, in collection order. -/
def specGetOutbox (st : OutboxStore) (outbox : String) (lo hi : Int) : List String :=
  itemsBetween 0 (st outbox) lo hi

/-- Modelled from the spec: the effect of one executed statement on the stored
outboxes. -/
def specEffect (i : Outboxes) (st : OutboxStore) (c : Call) : OutboxStore :=
  match c.kind, c.args with
  | .exec, [.str outbox, .str item] =>
    if c.stmt = i.prependOutboxItem then specPrependOutboxItem st outbox item
    else if c.stmt = i.deleteOutboxItem then specDeleteOutboxItem st outbox item
    else st
  | _, _ => st

/-- Modelled from the spec: the stored outboxes after the statements `calls`
were executed, oldest first, starting from `init`. -/
def specStore (i : Outboxes) (init : OutboxStore) (calls : List Call) : OutboxStore :=
  calls.foldl (specEffect i) init

/-- Modelled from the spec: the database behind a transaction, answering the
`OutboxContains` and `GetOutbox` queries from the stored outboxes; `encodePage`
is the stored form of the page holding the given items. -/
def specDriver (i : Outboxes) (encodePage : List String → GoValue) (init : OutboxStore) :
    Driver where
  query calls stmt args :=
    match args with
    | [.str outbox, .str item] =>
      if stmt = i.outboxContains then
        .ok ⟨[[.bool (specOutboxContains (specStore i init calls) outbox item)]], none⟩
      else .error ⟨"statement not modelled"⟩
    | [.str outbox, .int lo, .int hi] =>
      if stmt = i.getOutbox then
        .ok ⟨[[encodePage (specGetOutbox (specStore i init calls) outbox lo hi)]], none⟩
      else .error ⟨"statement not modelled"⟩
    | _ => .error ⟨"statement not modelled"⟩
  exec _ _ _ := none

/-! ## Observing the callback of `enforceOneRow` -/

/-- The callback `fn`, instrumented: next to the variables `fn` writes to, it
keeps the list of the rows it was invoked on, oldest first. -/
def recordCalls {σ : Type} (fn : Row → σ → σ × Option GoError) :
    Row → σ × List Row → (σ × List Row) × Option GoError :=
  fun row sl => (((fn row sl.1).1, sl.2 ++ [row]), (fn row sl.1).2)

/-! ## `Outboxes.Prepare` -/

/-- The outbox methods of the `SqlDialect` interface: the statement text each
returns. -/
structure SqlDialect where
  InsertOutbox : String
  OutboxContainsForActor : String
  OutboxContains : String
  GetOutbox : String
  GetPublicOutbox : String
  GetOutboxLastPage : String
  GetPublicOutboxLastPage : String
  PrependOutboxItem : String
  DeleteOutboxItem : String
  OutboxForInbox : String
deriving DecidableEq, Repr

/-- A `*sql.DB` as `Prepare` uses it: the error, if any, that preparing a
statement text gives. -/
structure DB where
  prepareError : String → Option GoError

/-- `db.Prepare(query)`: the statement prepared from the text, or the error. -/
def DB.Prepare (db : DB) (query : String) : Except GoError Stmt :=
  match db.prepareError query with
  | some err => .error err
  | none => .ok ⟨query⟩

/-- A `stmtPair`: the statement field to assign (in Go a `**sql.Stmt`) and
the text to prepare for it. -/
structure stmtPair (M : Type) where
  stmt : M → Stmt → M
  sql : String

/-- Modelled from the spec: `prepareStmtPairs`, the helper of package models
that `Prepare` calls and that is not among the sources; the store "only
executes prepared operations". It prepares the text of each pair in order and
assigns the statement to the pair's field, and stops at the first error. -/
def prepareStmtPairs {M : Type} (db : DB) : List (stmtPair M) → M → M × Option GoError
  | [], m => (m, none)
  | p :: rest, m =>
    match db.Prepare p.sql with
    | .error err => (m, some err)
    | .ok st => prepareStmtPairs db rest (p.stmt m st)

/-- `Outboxes.Prepare`. -/
def Outboxes.Prepare (i : Outboxes) (db : DB) (s : SqlDialect) : Outboxes × Option GoError :=
  prepareStmtPairs db
    [⟨fun i st => { i with insertOutbox := st }, s.InsertOutbox⟩,
     ⟨fun i st => { i with outboxContainsForActor := st }, s.OutboxContainsForActor⟩,
     ⟨fun i st => { i with outboxContains := st }, s.OutboxContains⟩,
     ⟨fun i st => { i with getOutbox := st }, s.GetOutbox⟩,
     ⟨fun i st => { i with getPublicOutbox := st }, s.GetPublicOutbox⟩,
     ⟨fun i st => { i with getLastPage := st }, s.GetOutboxLastPage⟩,
     ⟨fun i st => { i with getPublicLastPage := st }, s.GetPublicOutboxLastPage⟩,
     ⟨fun i st => { i with prependOutboxItem := st }, s.PrependOutboxItem⟩,
     ⟨fun i st => { i with deleteOutboxItem := st }, s.DeleteOutboxItem⟩,
     ⟨fun i st => { i with outboxForInbox := st }, s.OutboxForInbox⟩] i

/-! ## `keys.go` -/

/-- An `*rsa.PrivateKey`: its modulus and exponents. -/
structure rsa.PrivateKey where
  N : Nat
  E : Nat
  D : Nat
deriving DecidableEq, Repr

/-- The key generator `rsa.GenerateKey(rand.Reader, bits)`: what it answers,
given the sizes requested before, and the sizes requested so far, oldest
first. -/
structure KeyGen where
  generate : List Int → Int → Option rsa.PrivateKey × Option GoError
  requests : List Int

/-- `rsa.GenerateKey(rand.Reader, bits)`. -/
def KeyGen.GenerateKey (g : KeyGen) (bits : Int) :
    (Option rsa.PrivateKey × Option GoError) × KeyGen :=
  (g.generate g.requests bits, { g with requests := g.requests ++ [bits] })

/-- `createRSAPrivateKey`. -/
def createRSAPrivateKey (g : KeyGen) (n : Int) :
    (Option rsa.PrivateKey × Option GoError) × KeyGen :=
  if n < 1024 then
    ((none, some ⟨"Creating a key of size < 1024 is forbidden: " ++ toString n⟩), g)
  else
    g.GenerateKey n

/-! ## `paths/paths.go` -/

def pubKeyFragmentPrefix : String := "key-"

def usersRoute : String := "/users"

/-- `Paths`. -/
structure Paths where
  scheme : String
  host : String
deriving DecidableEq, Repr

/-- `NewPaths`. -/
def NewPaths (scheme host : String) : Paths :=
  { scheme := scheme, host := host }

/-- `Paths.getBase`. -/
def Paths.getBase (p : Paths) : String :=
  p.scheme ++ "://" ++ p.host

/-- `Paths.UsersPath`: the `*url.URL` (`none` is nil) and the error. -/
def Paths.UsersPath (lib : Lib) (p : Paths) (_userUUID : String) :
    Option url.URL × Option GoError :=
  match lib.urlParse (p.getBase ++ usersRoute) with
  | .error err => (none, some err)
  | .ok u => (some u, none)

/-- `Paths.PublicKeyPath`. `UsersPath` never returns a nil URL with a nil
error (there the assignment to `u.Fragment` would dereference nil), so the
second case is not reached. -/
def Paths.PublicKeyPath (lib : Lib) (p : Paths) (userUUID keyUUID : String) :
    Option url.URL × Option GoError :=
  match p.UsersPath lib userUUID with
  | (u, some err) => (u, some err)
  | (none, none) => (none, none)
  | (some u, none) => (some { u with Fragment := pubKeyFragmentPrefix ++ keyUUID }, none)

/-! ## Items of a page -/

/-- The IRI a JSON-LD entry stands for, when the entry is a string. -/
def JSON.iri? : JSON → Option String
  | .string s => some s
  | _ => none

/-- The IRIs of the items a go-fed value holds under its "orderedItems"
property, in order (a single entry may stand without an array). -/
def VocabValue.orderedItems (v : VocabValue) : List String :=
  match v.props.lookup "orderedItems" with
  | some (.array xs) => xs.filterMap JSON.iri?
  | some (.string s) => [s]
  | _ => []

/-- The IRIs of the items of a page, in order; a nil page has none. -/
def ActivityStreamsOrderedCollectionPage.items (p : ActivityStreamsOrderedCollectionPage) :
    List String :=
  match p.inner with
  | some v => v.orderedItems
  | none => []

/-! ## Concrete instances used to evaluate the definitions -/

/-- A library instance: booleans and integers convert from their own driver
type only, every non-empty byte string decodes to the empty JSON object. -/
def sampleLib : Lib where
  convertAssignBool v := match v with
    | .bool b => .ok b
    | _ => .error ⟨"sql: couldn't convert to bool"⟩
  convertAssignInt v := match v with
    | .int64 n => .ok n
    | _ => .error ⟨"sql: couldn't convert to int"⟩
  scanError _ e := ⟨"sql: Scan error: " ++ e.text⟩
  jsonUnmarshal b := if b = [] then .error ⟨"unexpected end of JSON input"⟩ else .ok []
  jsonMarshal _ := .ok [123, 125]
  streamsSerialize v := match v with
    | some d => .ok d.props
    | none => .error ⟨"nil value"⟩
  resolveOrderedCollectionPage m := .ok ⟨"OrderedCollectionPage", m⟩
  urlParse str := if str = "" then .error ⟨"empty url"⟩ else .ok ⟨"", "", str, "", ""⟩
  streamsToType m := (some ⟨"Object", m⟩, none)
  resolvePerson m := .ok ⟨"Person", m⟩
  resolveOrderedCollection m := .ok ⟨"OrderedCollection", m⟩

/-- Ten distinct prepared statements. -/
def sampleOutboxes : Outboxes :=
  ⟨⟨"s0"⟩, ⟨"s1"⟩, ⟨"s2"⟩, ⟨"s3"⟩, ⟨"s4"⟩, ⟨"s5"⟩, ⟨"s6"⟩, ⟨"s7"⟩, ⟨"s8"⟩, ⟨"s9"⟩⟩

/-- A fresh active transaction whose every query returns `q` and whose every
exec returns `x`. -/
def sampleTx (q : Except GoError Rows) (x : Option GoError) : Tx :=
  ⟨⟨fun _ _ _ => q, fun _ _ _ => x⟩, .active, []⟩

/-- A sample IRI. -/
def sampleIRI : url.URL := ⟨"https", "example.com", "/users/a/outbox", "", ""⟩

/-- A sample error. -/
def sampleErr : GoError := ⟨"driver: bad connection"⟩

/-- A result set of two rows, iterated without error. -/
def twoRows : Rows := ⟨[[.bool true], [.bool false]], none⟩

/-- An empty result set, iterated without error. -/
def noRows : Rows := ⟨[], none⟩

/-- A result set of one row holding the boolean `b`, iterated without error. -/
def oneBoolRow (b : Bool) : Rows := ⟨[[.bool b]], none⟩

/-- A result set of one row holding a page document and a start index. -/
def oneLastPageRow : Rows := ⟨[[.bytes [123, 125], .int64 7]], none⟩

/-- A result set of one row holding a page document. -/
def onePageRow : Rows := ⟨[[.bytes [123, 125]]], none⟩

/-- A result set of one row holding an IRI. -/
def oneIRIRow : Rows := ⟨[[.string "https://example.com/users/a/outbox"]], none⟩

/-- A result set whose first row holds no boolean. -/
def badFirstRow : Rows := ⟨[[.null], [.bool true]], none⟩

/-- A library instance whose `url.Parse` accepts every string as a path; like
Go's `url.Parse`, it returns the empty URL and a nil error for the empty
string. -/
def lenientParseLib : Lib :=
  { sampleLib with urlParse := fun str => .ok ⟨"", "", str, "", ""⟩ }

/-- The empty `url.URL`. -/
def emptyURL : url.URL := ⟨"", "", "", "", ""⟩

/-- A stored form of pages: one byte per item, the length of its IRI. -/
def lengthEncodePage (xs : List String) : GoValue :=
  .bytes (xs.map (fun s => s.length.toUInt8))

/-- The store without any item. -/
def emptyStore : OutboxStore := fun _ => []

/-- A fresh active transaction on the modelled database, starting from the
empty store. -/
def specTx : Tx := ⟨specDriver sampleOutboxes lengthEncodePage emptyStore, .active, []⟩

/-- An outbox IRI. -/
def outboxA : url.URL := ⟨"https", "a.example", "/outbox", "", ""⟩

/-- A first item IRI, 19 characters long. -/
def item1 : url.URL := ⟨"https", "a.example", "/1", "", ""⟩

/-- A second item IRI, 20 characters long. -/
def item2 : url.URL := ⟨"https", "a.example", "/22", "", ""⟩

/-- The transaction `specTx` after item1, then item2, were prepended to the
outbox. -/
def specTxTwoItems : Tx :=
  (sampleOutboxes.PrependOutboxItem
    (sampleOutboxes.PrependOutboxItem specTx outboxA item1).2 outboxA item2).2

/-- A result set that delivers one row and then reports an iteration error. -/
def oneRowThenError : Rows := ⟨[[.bool true]], some sampleErr⟩

/-- A result set of two rows, each holding a page document and a start
index. -/
def twoLastPageRows : Rows :=
  ⟨[[.bytes [123, 125], .int64 7], [.bytes [123, 125], .int64 8]], none⟩

/-- A dialect with ten distinct statement texts. -/
def sampleDialect : SqlDialect :=
  ⟨"insert outbox", "outbox contains for actor", "outbox contains", "get outbox",
    "get public outbox", "get outbox last page", "get public outbox last page",
    "prepend outbox item", "delete outbox item", "outbox for inbox"⟩

/-- A database that prepares every statement. -/
def sampleDB : DB := ⟨fun _ => none⟩

/-- A key generator that answers every request with the same key. -/
def sampleKeyGen : KeyGen := ⟨fun _ _ => (some ⟨3233, 17, 413⟩, none), []⟩

/-- The paths of a sample host. -/
def samplePaths : Paths := NewPaths "https" "example.com"

/-- A result set of two rows, each holding a page document. -/
def twoPageRows : Rows := ⟨[[.bytes [123, 125]], [.bytes [123, 125]]], none⟩

/-- A result set of two rows, each holding an IRI. -/
def twoIRIRows : Rows := ⟨[[.string "/users/a/outbox"], [.string "/users/b/outbox"]], none⟩

/-- A stored form of the characters of one item: each character as as many
bytes 1 as its code, closed by a byte 0; the item is closed by a byte 2. -/
def codecEncodeChars : List Char → List UInt8
  | [] => [2]
  | c :: cs => List.replicate c.toNat 1 ++ 0 :: codecEncodeChars cs

/-- A stored form of the items of a page: the stored forms of the items, one
after the other. -/
def codecEncodeItems : List String → List UInt8
  | [] => []
  | s :: xs => codecEncodeChars s.data ++ codecEncodeItems xs

/-- One step of reading `codecEncodeItems` back: the items read so far, the
characters of the item being read, and the bytes 1 counted for its next
character. -/
def codecDecodeStep (st : List String × List Char × Nat) (b : UInt8) :
    List String × List Char × Nat :=
  if b = 1 then (st.1, st.2.1, st.2.2 + 1)
  else if b = 0 then (st.1, st.2.1 ++ [Char.ofNat st.2.2], 0)
  else (st.1 ++ [String.mk st.2.1], [], 0)

/-- The inverse of `codecEncodeItems`. -/
def codecDecodeItems (b : List UInt8) : List String :=
  (b.foldl codecDecodeStep ([], [], 0)).1

/-- A library instance whose `json.Unmarshal` reads the bytes of
`codecEncodeItems` back into the "orderedItems" of a JSON object. -/
def codecLib : Lib :=
  { sampleLib with
    jsonUnmarshal := fun b =>
      .ok [("orderedItems", .array ((codecDecodeItems b).map JSON.string))] }

/-- The stored form of pages for `codecLib`. -/
def codecEncodePage (xs : List String) : GoValue :=
  .bytes (codecEncodeItems xs)

/-- A fresh active transaction on the modelled database storing pages with
`codecEncodePage`, starting from the empty store. -/
def codecTx : Tx := ⟨specDriver sampleOutboxes codecEncodePage emptyStore, .active, []⟩

/-- The transaction `codecTx` after item1, then item2, were prepended to the
outbox. -/
def codecTxTwoItems : Tx :=
  (sampleOutboxes.PrependOutboxItem
    (sampleOutboxes.PrependOutboxItem codecTx outboxA item1).2 outboxA item2).2

/-! ## `enforceOneRow` -/

theorem wrapInt_one : wrapInt 1 = 1 := by decide

theorem wrapInt_of_mem (x : Int) (h1 : minInt ≤ x) (h2 : x ≤ maxInt) : wrapInt x = x := by
  unfold wrapInt minInt maxInt at *
  omega

theorem enforceOneRow_nil {σ : Type} (r : Rows) (name : String)
    (fn : Row → σ → σ × Option GoError) (s : σ) (h : r.rows = []) :
    enforceOneRow r name fn s = (s, r.err) := by
  simp [enforceOneRow, h, enforceOneRowLoop]

theorem enforceOneRow_first_fails {σ : Type} (r : Rows) (name : String)
    (fn : Row → σ → σ × Option GoError) (s s' : σ) (row : Row) (rest : List Row) (e : GoError)
    (h : r.rows = row :: rest) (hfn : fn row s = (s', some e)) :
    enforceOneRow r name fn s = (s', some e) := by
  simp [enforceOneRow, h, enforceOneRowLoop, hfn]

theorem enforceOneRow_single {σ : Type} (r : Rows) (name : String)
    (fn : Row → σ → σ × Option GoError) (s s' : σ) (row : Row)
    (h : r.rows = [row]) (hfn : fn row s = (s', none)) :
    enforceOneRow r name fn s = (s', r.err) := by
  simp [enforceOneRow, h, enforceOneRowLoop, hfn]

theorem enforceOneRow_second_row {σ : Type} (r : Rows) (name : String)
    (fn : Row → σ → σ × Option GoError) (s s' : σ) (row1 row2 : Row) (rest : List Row)
    (h : r.rows = row1 :: row2 :: rest) (hfn : fn row1 s = (s', none)) :
    enforceOneRow r name fn s = (s', some (multipleRowsError name)) := by
  simp [enforceOneRow, h, enforceOneRowLoop, hfn, wrapInt_one]

theorem enforceOneRow_many_ne_none {σ : Type} (r : Rows) (name : String)
    (fn : Row → σ → σ × Option GoError) (s : σ) (h : 2 ≤ r.rows.length) :
    (enforceOneRow r name fn s).2 ≠ none := by
  obtain ⟨rows, err⟩ := r
  match rows, h with
  | row1 :: row2 :: rest, _ =>
    rcases hfn : fn row1 s with ⟨s', _ | e⟩
    · rw [enforceOneRow_second_row ⟨row1 :: row2 :: rest, err⟩ name fn s s' row1 row2 rest rfl hfn]
      simp
    · rw [enforceOneRow_first_fails ⟨row1 :: row2 :: rest, err⟩ name fn s s' row1 _ e rfl hfn]
      simp

/-! ## Single-row enforcement in the Outboxes lookups -/

/-- C1: `enforceOneRow` on a result set of two or more rows whose first row the
callback scans successfully returns the non-nil "multiple database rows
retrieved" error, and on any result set of two or more rows it never returns
nil; hence each Outboxes lookup (ContainsForActor, Contains, GetPage,
GetPublicPage, GetLastPage, GetPublicLastPage, OutboxForInbox) returns a
non-nil error when its query yields more than one row. -/
theorem enforceOneRow_rejects_multiple_rows (lib : Lib) (i : Outboxes) (tx : Tx) (rows : Rows)
    (hmany : 2 ≤ rows.rows.length) :
    (∀ (σ : Type) (name : String) (fn : Row → σ → σ × Option GoError) (s s' : σ),
      fn (rows.rows.get ⟨0, by omega⟩) s = (s', none) →
      (enforceOneRow rows name fn s).2 = some (multipleRowsError name)) ∧
    (∀ (σ : Type) (name : String) (fn : Row → σ → σ × Option GoError) (s : σ),
      (enforceOneRow rows name fn s).2 ≠ none) ∧
    (∀ actor item : url.URL,
      tx.yields i.outboxContainsForActor [.str actor.String, .str item.String] rows →
      (i.ContainsForActor lib tx actor item).1.2 ≠ none) ∧
    (∀ inbox item : url.URL,
      tx.yields i.outboxContains [.str inbox.String, .str item.String] rows →
      (i.Contains lib tx inbox item).1.2 ≠ none) ∧
    (∀ (outbox : url.URL) (min max : Int),
      tx.yields i.getOutbox [.str outbox.String, .int min, .int (intSub max 1)] rows →
      (i.GetPage lib tx outbox min max).1.2 ≠ none) ∧
    (∀ (outbox : url.URL) (min max : Int),
      tx.yields i.getPublicOutbox [.str outbox.String, .int min, .int (intSub max 1)] rows →
      (i.GetPublicPage lib tx outbox min max).1.2 ≠ none) ∧
    (∀ (outbox : url.URL) (n : Int),
      tx.yields i.getLastPage [.str outbox.String, .int n] rows →
      (i.GetLastPage lib tx outbox n).1.2 ≠ none) ∧
    (∀ (outbox : url.URL) (n : Int),
      tx.yields i.getPublicLastPage [.str outbox.String, .int n] rows →
      (i.GetPublicLastPage lib tx outbox n).1.2 ≠ none) ∧
    (∀ inbox : url.URL,
      tx.yields i.outboxForInbox [.str inbox.String] rows →
      (i.OutboxForInbox lib tx inbox).1.2 ≠ none) := by
  refine ⟨?_, ?_, ?_, ?_, ?_, ?_, ?_, ?_, ?_⟩
  · intro σ name fn s s' hfn
    obtain ⟨rs, err⟩ := rows
    match rs, hmany, hfn with
    | row1 :: row2 :: rest, _, hfn =>
      rw [enforceOneRow_second_row ⟨row1 :: row2 :: rest, err⟩ name fn s s' row1 row2 rest rfl hfn]
  · intro σ name fn s
    exact enforceOneRow_many_ne_none rows name fn s hmany
  · intro actor item hq
    unfold Tx.yields at hq
    simp only [Outboxes.ContainsForActor, Tx.QueryContext, hq]
    exact enforceOneRow_many_ne_none rows _ _ _ hmany
  · intro inbox item hq
    unfold Tx.yields at hq
    simp only [Outboxes.Contains, Tx.QueryContext, hq]
    exact enforceOneRow_many_ne_none rows _ _ _ hmany
  · intro outbox min max hq
    unfold Tx.yields at hq
    simp only [Outboxes.GetPage, Tx.QueryContext, hq]
    exact enforceOneRow_many_ne_none rows _ _ _ hmany
  · intro outbox min max hq
    unfold Tx.yields at hq
    simp only [Outboxes.GetPublicPage, Tx.QueryContext, hq]
    exact enforceOneRow_many_ne_none rows _ _ _ hmany
  · intro outbox n hq
    unfold Tx.yields at hq
    simp only [Outboxes.GetLastPage, Tx.QueryContext, hq]
    exact enforceOneRow_many_ne_none rows _ _ _ hmany
  · intro outbox n hq
    unfold Tx.yields at hq
    simp only [Outboxes.GetPublicLastPage, Tx.QueryContext, hq]
    exact enforceOneRow_many_ne_none rows _ _ _ hmany
  · intro inbox hq
    unfold Tx.yields at hq
    simp only [Outboxes.OutboxForInbox, Tx.QueryContext, hq]
    exact enforceOneRow_many_ne_none rows _ _ _ hmany

theorem enforceOneRow_rejects_multiple_rows_witness :
    2 ≤ twoRows.rows.length ∧
    (enforceOneRow twoRows "Outboxes.Contains"
      (fun r b => scan1 sampleLib (boolDest sampleLib) r b) false).2 =
        some (multipleRowsError "Outboxes.Contains") ∧
    (sampleOutboxes.Contains sampleLib (sampleTx (.ok twoRows) none) sampleIRI sampleIRI).1.2 ≠ none ∧
    (sampleOutboxes.OutboxForInbox sampleLib (sampleTx (.ok twoRows) none) sampleIRI).1.2 ≠ none :=
  have h := enforceOneRow_rejects_multiple_rows sampleLib sampleOutboxes
    (sampleTx (.ok twoRows) none) twoRows (by decide)
  ⟨by decide, h.1 Bool _ _ false true rfl, h.2.2.2.1 sampleIRI sampleIRI rfl,
    h.2.2.2.2.2.2.2.2 sampleIRI rfl⟩

/-- C2, as stated, fails: when the query yields zero rows and iteration ends
cleanly, every Outboxes lookup returns a nil error together with the zero value,
and `Contains` returns exactly what it returns for a found row holding
`false`. -/
theorem lookup_zero_rows_nil_error_counterexample :
    (sampleOutboxes.ContainsForActor sampleLib (sampleTx (.ok noRows) none)
      sampleIRI sampleIRI).1 = (false, none) ∧
    (sampleOutboxes.Contains sampleLib (sampleTx (.ok noRows) none)
      sampleIRI sampleIRI).1 = (false, none) ∧
    (sampleOutboxes.Contains sampleLib (sampleTx (.ok (oneBoolRow false)) none)
      sampleIRI sampleIRI).1 = (false, none) ∧
    (sampleOutboxes.GetPage sampleLib (sampleTx (.ok noRows) none) sampleIRI 0 10).1 =
      (⟨none⟩, none) ∧
    (sampleOutboxes.GetPublicPage sampleLib (sampleTx (.ok noRows) none) sampleIRI 0 10).1 =
      (⟨none⟩, none) ∧
    (sampleOutboxes.GetLastPage sampleLib (sampleTx (.ok noRows) none) sampleIRI 10).1 =
      ((⟨none⟩, 0), none) ∧
    (sampleOutboxes.GetPublicLastPage sampleLib (sampleTx (.ok noRows) none) sampleIRI 10).1 =
      ((⟨none⟩, 0), none) ∧
    (sampleOutboxes.OutboxForInbox sampleLib (sampleTx (.ok noRows) none) sampleIRI).1 =
      (⟨none⟩, none) :=
  ⟨rfl, rfl, rfl, rfl, rfl, rfl, rfl, rfl⟩

/-- C2, amended: when its query yields zero rows, every Outboxes lookup returns
the zero value (false, nil page, start index 0, nil URL) together with the row
iterator's own error, which is nil when iteration ended cleanly. -/
theorem lookup_zero_rows_returns_zero_value (lib : Lib) (i : Outboxes) (tx : Tx) (rows : Rows)
    (hzero : rows.rows = []) :
    (∀ actor item : url.URL,
      tx.yields i.outboxContainsForActor [.str actor.String, .str item.String] rows →
      (i.ContainsForActor lib tx actor item).1 = (false, rows.err)) ∧
    (∀ inbox item : url.URL,
      tx.yields i.outboxContains [.str inbox.String, .str item.String] rows →
      (i.Contains lib tx inbox item).1 = (false, rows.err)) ∧
    (∀ (outbox : url.URL) (min max : Int),
      tx.yields i.getOutbox [.str outbox.String, .int min, .int (intSub max 1)] rows →
      (i.GetPage lib tx outbox min max).1 = (⟨none⟩, rows.err)) ∧
    (∀ (outbox : url.URL) (min max : Int),
      tx.yields i.getPublicOutbox [.str outbox.String, .int min, .int (intSub max 1)] rows →
      (i.GetPublicPage lib tx outbox min max).1 = (⟨none⟩, rows.err)) ∧
    (∀ (outbox : url.URL) (n : Int),
      tx.yields i.getLastPage [.str outbox.String, .int n] rows →
      (i.GetLastPage lib tx outbox n).1 = ((⟨none⟩, 0), rows.err)) ∧
    (∀ (outbox : url.URL) (n : Int),
      tx.yields i.getPublicLastPage [.str outbox.String, .int n] rows →
      (i.GetPublicLastPage lib tx outbox n).1 = ((⟨none⟩, 0), rows.err)) ∧
    (∀ inbox : url.URL,
      tx.yields i.outboxForInbox [.str inbox.String] rows →
      (i.OutboxForInbox lib tx inbox).1 = (⟨none⟩, rows.err)) := by
  refine ⟨?_, ?_, ?_, ?_, ?_, ?_, ?_⟩
  · intro actor item hq
    unfold Tx.yields at hq
    simp only [Outboxes.ContainsForActor, Tx.QueryContext, hq]
    exact enforceOneRow_nil rows _ _ _ hzero
  · intro inbox item hq
    unfold Tx.yields at hq
    simp only [Outboxes.Contains, Tx.QueryContext, hq]
    exact enforceOneRow_nil rows _ _ _ hzero
  · intro outbox min max hq
    unfold Tx.yields at hq
    simp only [Outboxes.GetPage, Tx.QueryContext, hq]
    exact enforceOneRow_nil rows _ _ _ hzero
  · intro outbox min max hq
    unfold Tx.yields at hq
    simp only [Outboxes.GetPublicPage, Tx.QueryContext, hq]
    exact enforceOneRow_nil rows _ _ _ hzero
  · intro outbox n hq
    unfold Tx.yields at hq
    simp only [Outboxes.GetLastPage, Tx.QueryContext, hq]
    exact enforceOneRow_nil rows _ _ _ hzero
  · intro outbox n hq
    unfold Tx.yields at hq
    simp only [Outboxes.GetPublicLastPage, Tx.QueryContext, hq]
    exact enforceOneRow_nil rows _ _ _ hzero
  · intro inbox hq
    unfold Tx.yields at hq
    simp only [Outboxes.OutboxForInbox, Tx.QueryContext, hq]
    exact enforceOneRow_nil rows _ _ _ hzero

theorem lookup_zero_rows_returns_zero_value_witness :
    noRows.rows = [] ∧
    (sampleOutboxes.Contains sampleLib (sampleTx (.ok noRows) none) sampleIRI sampleIRI).1 =
      (false, noRows.err) ∧
    (sampleOutboxes.GetLastPage sampleLib (sampleTx (.ok noRows) none) sampleIRI 5).1 =
      ((⟨none⟩, 0), noRows.err) :=
  have h := lookup_zero_rows_returns_zero_value sampleLib sampleOutboxes
    (sampleTx (.ok noRows) none) noRows rfl
  ⟨rfl, h.2.1 sampleIRI sampleIRI rfl, h.2.2.2.2.1 sampleIRI 5 rfl⟩

/-- C3: an error returned by the scan callback on the first row is what
`enforceOneRow` returns, and an error returned by the statement's query or exec
call is what the Outboxes operation returns. -/
theorem errors_propagate_unchanged (lib : Lib) (i : Outboxes) (tx : Tx) (e : GoError) :
    (∀ (σ : Type) (r : Rows) (name : String) (fn : Row → σ → σ × Option GoError) (s s' : σ)
      (row : Row) (rest : List Row), r.rows = row :: rest → fn row s = (s', some e) →
      (enforceOneRow r name fn s).2 = some e) ∧
    (∀ (actor : url.URL) (outbox : ActivityStreamsOrderedCollection),
      tx.execFails i.insertOutbox [.str actor.String, .collection outbox] e →
      (i.Create tx actor outbox).1 = some e) ∧
    (∀ actor item : url.URL,
      tx.queryFails i.outboxContainsForActor [.str actor.String, .str item.String] e →
      (i.ContainsForActor lib tx actor item).1.2 = some e) ∧
    (∀ inbox item : url.URL,
      tx.queryFails i.outboxContains [.str inbox.String, .str item.String] e →
      (i.Contains lib tx inbox item).1.2 = some e) ∧
    (∀ (outbox : url.URL) (min max : Int),
      tx.queryFails i.getOutbox [.str outbox.String, .int min, .int (intSub max 1)] e →
      (i.GetPage lib tx outbox min max).1.2 = some e) ∧
    (∀ (outbox : url.URL) (min max : Int),
      tx.queryFails i.getPublicOutbox [.str outbox.String, .int min, .int (intSub max 1)] e →
      (i.GetPublicPage lib tx outbox min max).1.2 = some e) ∧
    (∀ (outbox : url.URL) (n : Int),
      tx.queryFails i.getLastPage [.str outbox.String, .int n] e →
      (i.GetLastPage lib tx outbox n).1.2 = some e) ∧
    (∀ (outbox : url.URL) (n : Int),
      tx.queryFails i.getPublicLastPage [.str outbox.String, .int n] e →
      (i.GetPublicLastPage lib tx outbox n).1.2 = some e) ∧
    (∀ outbox item : url.URL,
      tx.execFails i.prependOutboxItem [.str outbox.String, .str item.String] e →
      (i.PrependOutboxItem tx outbox item).1 = some e) ∧
    (∀ outbox item : url.URL,
      tx.execFails i.deleteOutboxItem [.str outbox.String, .str item.String] e →
      (i.DeleteOutboxItem tx outbox item).1 = some e) ∧
    (∀ inbox : url.URL,
      tx.queryFails i.outboxForInbox [.str inbox.String] e →
      (i.OutboxForInbox lib tx inbox).1.2 = some e) := by
  refine ⟨?_, ?_, ?_, ?_, ?_, ?_, ?_, ?_, ?_, ?_, ?_⟩
  · intro σ r name fn s s' row rest hr hfn
    rw [enforceOneRow_first_fails r name fn s s' row rest e hr hfn]
  · intro actor outbox hx
    unfold Tx.execFails at hx
    simp only [Outboxes.Create, Tx.ExecContext, hx]
  · intro actor item hq
    unfold Tx.queryFails at hq
    simp only [Outboxes.ContainsForActor, Tx.QueryContext, hq]
  · intro inbox item hq
    unfold Tx.queryFails at hq
    simp only [Outboxes.Contains, Tx.QueryContext, hq]
  · intro outbox min max hq
    unfold Tx.queryFails at hq
    simp only [Outboxes.GetPage, Tx.QueryContext, hq]
  · intro outbox min max hq
    unfold Tx.queryFails at hq
    simp only [Outboxes.GetPublicPage, Tx.QueryContext, hq]
  · intro outbox n hq
    unfold Tx.queryFails at hq
    simp only [Outboxes.GetLastPage, Tx.QueryContext, hq]
  · intro outbox n hq
    unfold Tx.queryFails at hq
    simp only [Outboxes.GetPublicLastPage, Tx.QueryContext, hq]
  · intro outbox item hx
    unfold Tx.execFails at hx
    simp only [Outboxes.PrependOutboxItem, Tx.ExecContext, hx]
  · intro outbox item hx
    unfold Tx.execFails at hx
    simp only [Outboxes.DeleteOutboxItem, Tx.ExecContext, hx]
  · intro inbox hq
    unfold Tx.queryFails at hq
    simp only [Outboxes.OutboxForInbox, Tx.QueryContext, hq]

theorem errors_propagate_unchanged_witness :
    (enforceOneRow badFirstRow "Outboxes.Contains"
      (fun r b => scan1 sampleLib (boolDest sampleLib) r b) false).2 =
        some (sampleLib.scanError 0 ⟨"sql: couldn't convert to bool"⟩) ∧
    (sampleOutboxes.Create (sampleTx (.error sampleErr) (some sampleErr)) sampleIRI ⟨none⟩).1 =
      some sampleErr ∧
    (sampleOutboxes.GetPage sampleLib (sampleTx (.error sampleErr) (some sampleErr))
      sampleIRI 0 10).1.2 = some sampleErr :=
  ⟨(errors_propagate_unchanged sampleLib sampleOutboxes (sampleTx (.ok badFirstRow) none)
      (sampleLib.scanError 0 ⟨"sql: couldn't convert to bool"⟩)).1
      Bool badFirstRow _ _ false false [.null] [[.bool true]] rfl rfl,
   (errors_propagate_unchanged sampleLib sampleOutboxes
      (sampleTx (.error sampleErr) (some sampleErr)) sampleErr).2.1 sampleIRI ⟨none⟩ rfl,
   (errors_propagate_unchanged sampleLib sampleOutboxes
      (sampleTx (.error sampleErr) (some sampleErr)) sampleErr).2.2.2.2.1 sampleIRI 0 10 rfl⟩

/-! ## Positional parameters of the Outboxes statements -/

/-- C4, as stated, fails: for max the smallest `int`, `max-1` wraps around and
`GetPage` and `GetPublicPage` bind the largest `int`, not `max-1`. -/
theorem getPage_binds_max_minus_one_counterexample :
    (sampleOutboxes.GetPage sampleLib (sampleTx (.ok noRows) none) sampleIRI 0 minInt).2.calls =
      [⟨.query, sampleOutboxes.getOutbox, [.str sampleIRI.String, .int 0, .int maxInt]⟩] ∧
    (sampleOutboxes.GetPublicPage sampleLib (sampleTx (.ok noRows) none)
      sampleIRI 0 minInt).2.calls =
      [⟨.query, sampleOutboxes.getPublicOutbox, [.str sampleIRI.String, .int 0, .int maxInt]⟩] ∧
    Arg.int maxInt ≠ Arg.int (minInt - 1) := by
  refine ⟨?_, ?_, ?_⟩
  · simp [Outboxes.GetPage, Tx.QueryContext, sampleTx, intSub, wrapInt, minInt, maxInt]
  · simp [Outboxes.GetPublicPage, Tx.QueryContext, sampleTx, intSub, wrapInt, minInt, maxInt]
  · simp [minInt, maxInt]

/-- C4, amended: for every outbox IRI, every `int` min and every `int` max
greater than the smallest `int`, `GetPage` and `GetPublicPage` execute one
query, binding exactly three positional parameters in this order: the outbox
IRI string, min, and max-1. -/
theorem getPage_binds_max_minus_one (lib : Lib) (i : Outboxes) (tx : Tx) (outbox : url.URL)
    (min max : Int) (hlo : minInt < max) (hhi : max ≤ maxInt) :
    (i.GetPage lib tx outbox min max).2.calls =
      tx.calls ++ [⟨.query, i.getOutbox, [.str outbox.String, .int min, .int (max - 1)]⟩] ∧
    (i.GetPublicPage lib tx outbox min max).2.calls =
      tx.calls ++ [⟨.query, i.getPublicOutbox, [.str outbox.String, .int min, .int (max - 1)]⟩] := by
  have hw : intSub max 1 = max - 1 := by
    unfold intSub
    exact wrapInt_of_mem _ (by unfold minInt at *; omega) (by unfold maxInt at *; omega)
  constructor
  · unfold Outboxes.GetPage Tx.QueryContext
    rw [hw]
    cases tx.driver.query tx.calls i.getOutbox
      [.str outbox.String, .int min, .int (max - 1)] <;> rfl
  · unfold Outboxes.GetPublicPage Tx.QueryContext
    rw [hw]
    cases tx.driver.query tx.calls i.getPublicOutbox
      [.str outbox.String, .int min, .int (max - 1)] <;> rfl

theorem getPage_binds_max_minus_one_witness :
    minInt < 10 ∧ (10 : Int) ≤ maxInt ∧
    (sampleOutboxes.GetPage sampleLib (sampleTx (.ok noRows) none) sampleIRI 0 10).2.calls =
      [] ++ [⟨.query, sampleOutboxes.getOutbox, [.str sampleIRI.String, .int 0, .int (10 - 1)]⟩] :=
  ⟨by decide, by decide,
    (getPage_binds_max_minus_one sampleLib sampleOutboxes (sampleTx (.ok noRows) none)
      sampleIRI 0 10 (by decide) (by decide)).1⟩

/-- C5: every Outboxes operation executes one statement and binds to it, in
order, the arguments documented for its SqlDialect operation: Create (actor IRI,
outbox, sent as the bytes its `Value` serializes), ContainsForActor (actor IRI,
item IRI), Contains (outbox IRI, item IRI), GetLastPage and GetPublicLastPage
(outbox IRI, n), PrependOutboxItem and DeleteOutboxItem (outbox IRI, item IRI),
OutboxForInbox (inbox IRI); the argument types are the documented ones. -/
theorem outboxes_bind_documented_arguments (lib : Lib) (i : Outboxes) (tx : Tx) :
    (∀ (actor : url.URL) (outbox : ActivityStreamsOrderedCollection),
      (i.Create tx actor outbox).2.calls =
        tx.calls ++ [⟨.exec, i.insertOutbox, [.str actor.String, .collection outbox]⟩] ∧
      Call.paramTypes ⟨.exec, i.insertOutbox, [.str actor.String, .collection outbox]⟩ =
        documentedTypes SqlDialect.InsertOutbox.Params ∧
      ∀ b, marshal lib outbox.inner = .ok b → outbox.Value lib = (.bytes b, none)) ∧
    (∀ actor item : url.URL,
      (i.ContainsForActor lib tx actor item).2.calls =
        tx.calls ++ [⟨.query, i.outboxContainsForActor, [.str actor.String, .str item.String]⟩] ∧
      Call.paramTypes ⟨.query, i.outboxContainsForActor, [.str actor.String, .str item.String]⟩ =
        documentedTypes SqlDialect.OutboxContainsForActor.Params) ∧
    (∀ inbox item : url.URL,
      (i.Contains lib tx inbox item).2.calls =
        tx.calls ++ [⟨.query, i.outboxContains, [.str inbox.String, .str item.String]⟩] ∧
      Call.paramTypes ⟨.query, i.outboxContains, [.str inbox.String, .str item.String]⟩ =
        documentedTypes SqlDialect.OutboxContains.Params) ∧
    (∀ (outbox : url.URL) (n : Int),
      (i.GetLastPage lib tx outbox n).2.calls =
        tx.calls ++ [⟨.query, i.getLastPage, [.str outbox.String, .int n]⟩] ∧
      Call.paramTypes ⟨.query, i.getLastPage, [.str outbox.String, .int n]⟩ =
        documentedTypes SqlDialect.GetOutboxLastPage.Params) ∧
    (∀ (outbox : url.URL) (n : Int),
      (i.GetPublicLastPage lib tx outbox n).2.calls =
        tx.calls ++ [⟨.query, i.getPublicLastPage, [.str outbox.String, .int n]⟩] ∧
      Call.paramTypes ⟨.query, i.getPublicLastPage, [.str outbox.String, .int n]⟩ =
        documentedTypes SqlDialect.GetPublicOutboxLastPage.Params) ∧
    (∀ outbox item : url.URL,
      (i.PrependOutboxItem tx outbox item).2.calls =
        tx.calls ++ [⟨.exec, i.prependOutboxItem, [.str outbox.String, .str item.String]⟩] ∧
      Call.paramTypes ⟨.exec, i.prependOutboxItem, [.str outbox.String, .str item.String]⟩ =
        documentedTypes SqlDialect.PrependOutboxItem.Params) ∧
    (∀ outbox item : url.URL,
      (i.DeleteOutboxItem tx outbox item).2.calls =
        tx.calls ++ [⟨.exec, i.deleteOutboxItem, [.str outbox.String, .str item.String]⟩] ∧
      Call.paramTypes ⟨.exec, i.deleteOutboxItem, [.str outbox.String, .str item.String]⟩ =
        documentedTypes SqlDialect.DeleteOutboxItem.Params) ∧
    (∀ inbox : url.URL,
      (i.OutboxForInbox lib tx inbox).2.calls =
        tx.calls ++ [⟨.query, i.outboxForInbox, [.str inbox.String]⟩] ∧
      Call.paramTypes ⟨.query, i.outboxForInbox, [.str inbox.String]⟩ =
        documentedTypes SqlDialect.OutboxForInbox.Params) := by
  refine ⟨?_, ?_, ?_, ?_, ?_, ?_, ?_, ?_⟩
  · intro actor outbox
    refine ⟨rfl, rfl, ?_⟩
    intro b hb
    simp only [ActivityStreamsOrderedCollection.Value, hb]
  · intro actor item
    refine ⟨?_, rfl⟩
    unfold Outboxes.ContainsForActor Tx.QueryContext
    cases tx.driver.query tx.calls i.outboxContainsForActor
      [.str actor.String, .str item.String] <;> rfl
  · intro inbox item
    refine ⟨?_, rfl⟩
    unfold Outboxes.Contains Tx.QueryContext
    cases tx.driver.query tx.calls i.outboxContains
      [.str inbox.String, .str item.String] <;> rfl
  · intro outbox n
    refine ⟨?_, rfl⟩
    unfold Outboxes.GetLastPage Tx.QueryContext
    cases tx.driver.query tx.calls i.getLastPage [.str outbox.String, .int n] <;> rfl
  · intro outbox n
    refine ⟨?_, rfl⟩
    unfold Outboxes.GetPublicLastPage Tx.QueryContext
    cases tx.driver.query tx.calls i.getPublicLastPage [.str outbox.String, .int n] <;> rfl
  · intro outbox item
    exact ⟨rfl, rfl⟩
  · intro outbox item
    exact ⟨rfl, rfl⟩
  · intro inbox
    refine ⟨?_, rfl⟩
    unfold Outboxes.OutboxForInbox Tx.QueryContext
    cases tx.driver.query tx.calls i.outboxForInbox [.str inbox.String] <;> rfl

theorem outboxes_bind_documented_arguments_witness :
    marshal sampleLib (some ⟨"OrderedCollection", []⟩) = .ok [123, 125] ∧
    ActivityStreamsOrderedCollection.Value sampleLib ⟨some ⟨"OrderedCollection", []⟩⟩ =
      (.bytes [123, 125], none) :=
  ⟨rfl, ((outboxes_bind_documented_arguments sampleLib sampleOutboxes
    (sampleTx (.ok noRows) none)).1 sampleIRI ⟨some ⟨"OrderedCollection", []⟩⟩).2.2 _ rfl⟩

/-! ## Values returned by the Outboxes lookups -/

theorem scan1_ok {α : Type} (lib : Lib) (conv : α → GoValue → α × Option GoError)
    (c : GoValue) (a a' : α) (h : conv a c = (a', none)) :
    scan1 lib conv [c] a = (a', none) := by
  simp [scan1, h]

theorem scan2_ok {α β : Type} (lib : Lib) (convA : α → GoValue → α × Option GoError)
    (convB : β → GoValue → β × Option GoError) (c1 c2 : GoValue) (a a' : α) (b b' : β)
    (ha : convA a c1 = (a', none)) (hb : convB b c2 = (b', none)) :
    scan2 lib convA convB [c1, c2] (a, b) = ((a', b'), none) := by
  simp [scan2, ha, hb]

theorem boolDest_ok (lib : Lib) (c : GoValue) (b v : Bool)
    (h : lib.convertAssignBool c = .ok v) : boolDest lib b c = (v, none) := by
  simp [boolDest, h]

theorem intDest_ok (lib : Lib) (c : GoValue) (k v : Int)
    (h : lib.convertAssignInt c = .ok v) : intDest lib k c = (v, none) := by
  simp [intDest, h]

/-- C6: when the query of an Outboxes lookup yields exactly one row, iterated
without error, and the scan of that row succeeds, the lookup returns a nil error
with the scanned values: Contains and ContainsForActor the row's boolean,
GetPage and GetPublicPage the page scanned from the row's column, GetLastPage
and GetPublicLastPage the page scanned from the first column and the start
index scanned from the second, OutboxForInbox the URL scanned from the row's
column. -/
theorem lookups_return_scanned_row (lib : Lib) (i : Outboxes) (tx : Tx) (rows : Rows)
    (hclean : rows.err = none) :
    (∀ (actor item : url.URL) (c : GoValue) (v : Bool),
      rows.rows = [[c]] → lib.convertAssignBool c = .ok v →
      tx.yields i.outboxContainsForActor [.str actor.String, .str item.String] rows →
      (i.ContainsForActor lib tx actor item).1 = (v, none)) ∧
    (∀ (inbox item : url.URL) (c : GoValue) (v : Bool),
      rows.rows = [[c]] → lib.convertAssignBool c = .ok v →
      tx.yields i.outboxContains [.str inbox.String, .str item.String] rows →
      (i.Contains lib tx inbox item).1 = (v, none)) ∧
    (∀ (outbox : url.URL) (min max : Int) (c : GoValue) (p : ActivityStreamsOrderedCollectionPage),
      rows.rows = [[c]] → ActivityStreamsOrderedCollectionPage.Scan lib ⟨none⟩ c = (p, none) →
      tx.yields i.getOutbox [.str outbox.String, .int min, .int (intSub max 1)] rows →
      (i.GetPage lib tx outbox min max).1 = (p, none)) ∧
    (∀ (outbox : url.URL) (min max : Int) (c : GoValue) (p : ActivityStreamsOrderedCollectionPage),
      rows.rows = [[c]] → ActivityStreamsOrderedCollectionPage.Scan lib ⟨none⟩ c = (p, none) →
      tx.yields i.getPublicOutbox [.str outbox.String, .int min, .int (intSub max 1)] rows →
      (i.GetPublicPage lib tx outbox min max).1 = (p, none)) ∧
    (∀ (outbox : url.URL) (n : Int) (c1 c2 : GoValue) (p : ActivityStreamsOrderedCollectionPage)
      (k : Int),
      rows.rows = [[c1, c2]] → ActivityStreamsOrderedCollectionPage.Scan lib ⟨none⟩ c1 = (p, none) →
      lib.convertAssignInt c2 = .ok k →
      tx.yields i.getLastPage [.str outbox.String, .int n] rows →
      (i.GetLastPage lib tx outbox n).1 = ((p, k), none)) ∧
    (∀ (outbox : url.URL) (n : Int) (c1 c2 : GoValue) (p : ActivityStreamsOrderedCollectionPage)
      (k : Int),
      rows.rows = [[c1, c2]] → ActivityStreamsOrderedCollectionPage.Scan lib ⟨none⟩ c1 = (p, none) →
      lib.convertAssignInt c2 = .ok k →
      tx.yields i.getPublicLastPage [.str outbox.String, .int n] rows →
      (i.GetPublicLastPage lib tx outbox n).1 = ((p, k), none)) ∧
    (∀ (inbox : url.URL) (c : GoValue) (u : URL),
      rows.rows = [[c]] → URL.Scan lib ⟨none⟩ c = (u, none) →
      tx.yields i.outboxForInbox [.str inbox.String] rows →
      (i.OutboxForInbox lib tx inbox).1 = (u, none)) := by
  refine ⟨?_, ?_, ?_, ?_, ?_, ?_, ?_⟩
  · intro actor item c v hr hc hq
    unfold Tx.yields at hq
    simp only [Outboxes.ContainsForActor, Tx.QueryContext, hq]
    rw [enforceOneRow_single rows _ _ false v [c] hr (scan1_ok lib _ c false v
      (boolDest_ok lib c false v hc)), hclean]
  · intro inbox item c v hr hc hq
    unfold Tx.yields at hq
    simp only [Outboxes.Contains, Tx.QueryContext, hq]
    rw [enforceOneRow_single rows _ _ false v [c] hr (scan1_ok lib _ c false v
      (boolDest_ok lib c false v hc)), hclean]
  · intro outbox min max c p hr hc hq
    unfold Tx.yields at hq
    simp only [Outboxes.GetPage, Tx.QueryContext, hq]
    rw [enforceOneRow_single rows _ _ ⟨none⟩ p [c] hr (scan1_ok lib _ c ⟨none⟩ p hc), hclean]
  · intro outbox min max c p hr hc hq
    unfold Tx.yields at hq
    simp only [Outboxes.GetPublicPage, Tx.QueryContext, hq]
    rw [enforceOneRow_single rows _ _ ⟨none⟩ p [c] hr (scan1_ok lib _ c ⟨none⟩ p hc), hclean]
  · intro outbox n c1 c2 p k hr hp hk hq
    unfold Tx.yields at hq
    simp only [Outboxes.GetLastPage, Tx.QueryContext, hq]
    rw [enforceOneRow_single rows _ _ (⟨none⟩, 0) (p, k) [c1, c2] hr
      (scan2_ok lib _ _ c1 c2 ⟨none⟩ p 0 k hp (intDest_ok lib c2 0 k hk)), hclean]
  · intro outbox n c1 c2 p k hr hp hk hq
    unfold Tx.yields at hq
    simp only [Outboxes.GetPublicLastPage, Tx.QueryContext, hq]
    rw [enforceOneRow_single rows _ _ (⟨none⟩, 0) (p, k) [c1, c2] hr
      (scan2_ok lib _ _ c1 c2 ⟨none⟩ p 0 k hp (intDest_ok lib c2 0 k hk)), hclean]
  · intro inbox c u hr hc hq
    unfold Tx.yields at hq
    simp only [Outboxes.OutboxForInbox, Tx.QueryContext, hq]
    rw [enforceOneRow_single rows _ _ ⟨none⟩ u [c] hr (scan1_ok lib _ c ⟨none⟩ u hc), hclean]

theorem lookups_return_scanned_row_witness :
    (sampleOutboxes.Contains sampleLib (sampleTx (.ok (oneBoolRow true)) none)
      sampleIRI sampleIRI).1 = (true, none) ∧
    (sampleOutboxes.GetPage sampleLib (sampleTx (.ok onePageRow) none) sampleIRI 0 10).1 =
      (⟨some ⟨"OrderedCollectionPage", []⟩⟩, none) ∧
    (sampleOutboxes.GetLastPage sampleLib (sampleTx (.ok oneLastPageRow) none) sampleIRI 10).1 =
      ((⟨some ⟨"OrderedCollectionPage", []⟩⟩, 7), none) ∧
    (sampleOutboxes.OutboxForInbox sampleLib (sampleTx (.ok oneIRIRow) none) sampleIRI).1 =
      (⟨some ⟨"", "", "https://example.com/users/a/outbox", "", ""⟩⟩, none) :=
  ⟨(lookups_return_scanned_row sampleLib sampleOutboxes (sampleTx (.ok (oneBoolRow true)) none)
      (oneBoolRow true) rfl).2.1 sampleIRI sampleIRI (.bool true) true rfl rfl rfl,
   (lookups_return_scanned_row sampleLib sampleOutboxes (sampleTx (.ok onePageRow) none)
      onePageRow rfl).2.2.1 sampleIRI 0 10 (.bytes [123, 125]) _ rfl rfl rfl,
   (lookups_return_scanned_row sampleLib sampleOutboxes (sampleTx (.ok oneLastPageRow) none)
      oneLastPageRow rfl).2.2.2.2.1 sampleIRI 10 (.bytes [123, 125]) (.int64 7) _ 7 rfl
      rfl rfl rfl,
   (lookups_return_scanned_row sampleLib sampleOutboxes (sampleTx (.ok oneIRIRow) none)
      oneIRIRow rfl).2.2.2.2.2.2 sampleIRI (.string "https://example.com/users/a/outbox") _ rfl
      (by decide) rfl⟩

/-! ## `OnFollowBehavior` codec -/

theorem onFollow_tokens_distinct :
    onFollowAlwaysAccept ≠ onFollowAlwaysReject ∧ onFollowAlwaysAccept ≠ onFollowManual ∧
    onFollowAlwaysReject ≠ onFollowManual := by
  decide

/-- C7: for each of the three `OnFollowBehavior` values (automatically accept,
automatically reject, do nothing), `Value` succeeds and `Scan` of the token it
returns succeeds and yields the original value, whatever the destination held
before. -/
theorem onFollowBehavior_round_trip (k : PubConsts) (hk : k.Distinct) (o v : OnFollowBehavior)
    (hv : v = k.OnFollowAutomaticallyAccept ∨ v = k.OnFollowAutomaticallyReject ∨
      v = k.OnFollowDoNothing) :
    (OnFollowBehavior.Value k v).2 = none ∧
    OnFollowBehavior.Scan k o (OnFollowBehavior.Value k v).1 = (v, none) := by
  obtain ⟨h1, h2, h3⟩ := hk
  obtain ⟨t1, t2, t3⟩ := onFollow_tokens_distinct
  rcases hv with rfl | rfl | rfl
  · simp [OnFollowBehavior.Value, OnFollowBehavior.Scan]
  · simp [OnFollowBehavior.Value, OnFollowBehavior.Scan, Ne.symm h1, Ne.symm t1]
  · simp [OnFollowBehavior.Value, OnFollowBehavior.Scan, Ne.symm h2, Ne.symm h3, Ne.symm t2,
      Ne.symm t3]

theorem onFollowBehavior_round_trip_witness :
    goFedConsts.Distinct ∧
    (OnFollowBehavior.Value goFedConsts 2).2 = none ∧
    OnFollowBehavior.Scan goFedConsts 0 (OnFollowBehavior.Value goFedConsts 2).1 = (2, none) :=
  ⟨by decide, onFollowBehavior_round_trip goFedConsts (by decide) 0 2 (Or.inr (Or.inl rfl))⟩

/-- C8: for every string other than "ALWAYS_ACCEPT" and "ALWAYS_REJECT",
`OnFollowBehavior.Scan` returns a nil error and sets the value to do nothing
(manual), whatever it held before. -/
theorem onFollowBehavior_scan_defaults_to_manual (k : PubConsts) (o : OnFollowBehavior)
    (s : String) (ha : s ≠ "ALWAYS_ACCEPT") (hr : s ≠ "ALWAYS_REJECT") :
    OnFollowBehavior.Scan k o (.string s) = (k.OnFollowDoNothing, none) := by
  have ha' : s ≠ onFollowAlwaysAccept := ha
  have hr' : s ≠ onFollowAlwaysReject := hr
  simp [OnFollowBehavior.Scan, ha', hr']

theorem onFollowBehavior_scan_defaults_to_manual_witness :
    OnFollowBehavior.Scan goFedConsts 1 (.string "always_accept") = (0, none) ∧
    OnFollowBehavior.Scan goFedConsts 1 (.string "") = (0, none) ∧
    OnFollowBehavior.Scan goFedConsts 1 (.string "MANUAL") = (0, none) :=
  ⟨onFollowBehavior_scan_defaults_to_manual goFedConsts 1 "always_accept" (by decide) (by decide),
   onFollowBehavior_scan_defaults_to_manual goFedConsts 1 "" (by decide) (by decide),
   onFollowBehavior_scan_defaults_to_manual goFedConsts 1 "MANUAL" (by decide) (by decide)⟩

/-- C9: for every `OnFollowBehavior` value, defined or not, `Value` returns a
nil error and one of the strings "ALWAYS_ACCEPT", "ALWAYS_REJECT", "MANUAL";
the three defined values map to these three tokens in this order, and the
tokens are pairwise distinct. -/
theorem onFollowBehavior_value_is_token (k : PubConsts) (o : OnFollowBehavior) :
    (OnFollowBehavior.Value k o).2 = none ∧
    ((OnFollowBehavior.Value k o).1 = .string "ALWAYS_ACCEPT" ∨
      (OnFollowBehavior.Value k o).1 = .string "ALWAYS_REJECT" ∨
      (OnFollowBehavior.Value k o).1 = .string "MANUAL") ∧
    (k.Distinct →
      (OnFollowBehavior.Value k k.OnFollowAutomaticallyAccept).1 = .string "ALWAYS_ACCEPT" ∧
      (OnFollowBehavior.Value k k.OnFollowAutomaticallyReject).1 = .string "ALWAYS_REJECT" ∧
      (OnFollowBehavior.Value k k.OnFollowDoNothing).1 = .string "MANUAL") ∧
    ("ALWAYS_ACCEPT" ≠ "ALWAYS_REJECT" ∧ "ALWAYS_ACCEPT" ≠ "MANUAL" ∧
      "ALWAYS_REJECT" ≠ "MANUAL") := by
  refine ⟨?_, ?_, ?_, by decide⟩
  · unfold OnFollowBehavior.Value
    split_ifs <;> rfl
  · unfold OnFollowBehavior.Value
    split_ifs <;> simp [onFollowAlwaysAccept, onFollowAlwaysReject, onFollowManual]
  · rintro ⟨h1, h2, h3⟩
    simp [OnFollowBehavior.Value, Ne.symm h1, Ne.symm h2, Ne.symm h3, onFollowAlwaysAccept,
      onFollowAlwaysReject, onFollowManual]

theorem onFollowBehavior_value_is_token_witness :
    goFedConsts.Distinct ∧
    (OnFollowBehavior.Value goFedConsts 1).1 = .string "ALWAYS_ACCEPT" ∧
    (OnFollowBehavior.Value goFedConsts 2).1 = .string "ALWAYS_REJECT" ∧
    (OnFollowBehavior.Value goFedConsts 0).1 = .string "MANUAL" ∧
    (OnFollowBehavior.Value goFedConsts 17).1 = .string "MANUAL" :=
  ⟨by decide, (onFollowBehavior_value_is_token goFedConsts 17).2.2.1 (by decide) |>.1,
   (onFollowBehavior_value_is_token goFedConsts 17).2.2.1 (by decide) |>.2.1,
   (onFollowBehavior_value_is_token goFedConsts 17).2.2.1 (by decide) |>.2.2,
   by decide⟩

/-! ## `NullDuration` codec -/

/-- C10: `NullDuration.Scan(nil)` returns a nil error and yields Valid = false
with Duration 0; `Scan` of any int64 t, t = 0 included, returns a nil error and
yields Valid = true and Duration = t; so a nil source is never decoded as a
valid zero duration. -/
theorem nullDuration_scan (n : NullDuration) :
    NullDuration.Scan n .null = ({ Duration := 0, Valid := false }, none) ∧
    (∀ t : Int, NullDuration.Scan n (.int64 t) = ({ Duration := t, Valid := true }, none)) ∧
    NullDuration.Scan n (.int64 0) = ({ Duration := 0, Valid := true }, none) ∧
    (NullDuration.Scan n .null).1.Valid = false ∧
    (NullDuration.Scan n .null).1 ≠ (NullDuration.Scan n (.int64 0)).1 := by
  refine ⟨rfl, fun _ => rfl, rfl, rfl, ?_⟩
  simp [NullDuration.Scan]

/-! ## `URL` codec -/

/-- C11, as stated, fails: `url.Parse` accepts the empty string, and `URL.Scan`
of the empty string returns a nil error with the empty URL. -/
theorem url_scan_empty_string_counterexample :
    lenientParseLib.urlParse "" = .ok emptyURL ∧
    URL.Scan lenientParseLib ⟨none⟩ (.string "") = (⟨some emptyURL⟩, none) :=
  ⟨rfl, rfl⟩

/-- C11, amended: `URL.Scan` returns a non-nil error for every src that is not a
string and, for every string that `url.Parse` rejects, the error of
`url.Parse`; it returns a nil error only when src is a string that `url.Parse`
accepts, and then the wrapped URL is the parsed value, never nil. -/
theorem url_scan_errors (lib : Lib) (u : URL) :
    (∀ src : GoValue, (∀ s, src ≠ .string s) →
      URL.Scan lib u src = (u, some ⟨"failed to assert scan to string type"⟩)) ∧
    (∀ (s : String) (e : GoError), lib.urlParse s = .error e →
      URL.Scan lib u (.string s) = (⟨none⟩, some e)) ∧
    (∀ (src : GoValue) (u' : URL), URL.Scan lib u src = (u', none) →
      ∃ s v, src = .string s ∧ lib.urlParse s = .ok v ∧ u' = ⟨some v⟩ ∧ u'.inner ≠ none) := by
  refine ⟨?_, ?_, ?_⟩
  · intro src hsrc
    cases src with
    | string s => exact absurd rfl (hsrc s)
    | _ => rfl
  · intro s e he
    simp only [URL.Scan, he]
  · intro src u' h
    cases src with
    | string s =>
      simp only [URL.Scan] at h
      cases hp : lib.urlParse s with
      | error e => rw [hp] at h; simp at h
      | ok v =>
        rw [hp] at h
        simp only [Prod.mk.injEq, and_true] at h
        exact ⟨s, v, rfl, hp, h.symm, by rw [← h]; simp⟩
    | _ => simp [URL.Scan] at h

theorem url_scan_errors_witness :
    URL.Scan sampleLib ⟨none⟩ (.int64 3) =
      (⟨none⟩, some ⟨"failed to assert scan to string type"⟩) ∧
    URL.Scan sampleLib ⟨some sampleIRI⟩ (.string "") = (⟨none⟩, some ⟨"empty url"⟩) ∧
    (∃ s v, GoValue.string "/users/a" = .string s ∧ sampleLib.urlParse s = .ok v ∧
      (⟨some ⟨"", "", "/users/a", "", ""⟩⟩ : URL) = ⟨some v⟩ ∧
      (⟨some ⟨"", "", "/users/a", "", ""⟩⟩ : URL).inner ≠ none) :=
  ⟨(url_scan_errors sampleLib ⟨none⟩).1 (.int64 3) (by intro s h; cases h),
   (url_scan_errors sampleLib ⟨some sampleIRI⟩).2.1 "" ⟨"empty url"⟩ rfl,
   (url_scan_errors sampleLib ⟨none⟩).2.2 (.string "/users/a") _ rfl⟩

/-! ## ActivityStreams codecs -/

theorem unmarshal_not_bytes (lib : Lib) (src : GoValue) (h : ∀ b, src ≠ .bytes b) :
    unmarshal lib src = .error ⟨"failed to assert scan to []byte type"⟩ := by
  cases src with
  | bytes b => exact absurd rfl (h b)
  | _ => rfl

/-- C12: for every src that is not a byte slice, and for every byte slice that
`json.Unmarshal` rejects, `Scan` on ActivityStreams, ActivityStreamsPerson,
ActivityStreamsOrderedCollection and ActivityStreamsOrderedCollectionPage
returns a non-nil error (the type-assertion error, respectively the error of
`json.Unmarshal`) and leaves the wrapped value unchanged. -/
theorem activityStreams_scan_rejects_bad_source (lib : Lib) :
    (∀ (a : ActivityStreams) (src : GoValue), (∀ b, src ≠ .bytes b) →
      ActivityStreams.Scan lib a src =
        (a, some ⟨"failed to assert scan to []byte type"⟩)) ∧
    (∀ (a : ActivityStreams) (b : List UInt8) (e : GoError), lib.jsonUnmarshal b = .error e →
      ActivityStreams.Scan lib a (.bytes b) = (a, some e)) ∧
    (∀ (a : ActivityStreamsPerson) (src : GoValue), (∀ b, src ≠ .bytes b) →
      ActivityStreamsPerson.Scan lib a src =
        (a, some ⟨"failed to assert scan to []byte type"⟩)) ∧
    (∀ (a : ActivityStreamsPerson) (b : List UInt8) (e : GoError),
      lib.jsonUnmarshal b = .error e →
      ActivityStreamsPerson.Scan lib a (.bytes b) = (a, some e)) ∧
    (∀ (a : ActivityStreamsOrderedCollection) (src : GoValue), (∀ b, src ≠ .bytes b) →
      ActivityStreamsOrderedCollection.Scan lib a src =
        (a, some ⟨"failed to assert scan to []byte type"⟩)) ∧
    (∀ (a : ActivityStreamsOrderedCollection) (b : List UInt8) (e : GoError),
      lib.jsonUnmarshal b = .error e →
      ActivityStreamsOrderedCollection.Scan lib a (.bytes b) = (a, some e)) ∧
    (∀ (a : ActivityStreamsOrderedCollectionPage) (src : GoValue), (∀ b, src ≠ .bytes b) →
      ActivityStreamsOrderedCollectionPage.Scan lib a src =
        (a, some ⟨"failed to assert scan to []byte type"⟩)) ∧
    (∀ (a : ActivityStreamsOrderedCollectionPage) (b : List UInt8) (e : GoError),
      lib.jsonUnmarshal b = .error e →
      ActivityStreamsOrderedCollectionPage.Scan lib a (.bytes b) = (a, some e)) := by
  refine ⟨?_, ?_, ?_, ?_, ?_, ?_, ?_, ?_⟩
  · intro a src h
    simp only [ActivityStreams.Scan, unmarshal_not_bytes lib src h]
  · intro a b e h
    simp only [ActivityStreams.Scan, unmarshal, h]
  · intro a src h
    simp only [ActivityStreamsPerson.Scan, unmarshal_not_bytes lib src h]
  · intro a b e h
    simp only [ActivityStreamsPerson.Scan, unmarshal, h]
  · intro a src h
    simp only [ActivityStreamsOrderedCollection.Scan, unmarshal_not_bytes lib src h]
  · intro a b e h
    simp only [ActivityStreamsOrderedCollection.Scan, unmarshal, h]
  · intro a src h
    simp only [ActivityStreamsOrderedCollectionPage.Scan, unmarshal_not_bytes lib src h]
  · intro a b e h
    simp only [ActivityStreamsOrderedCollectionPage.Scan, unmarshal, h]

theorem activityStreams_scan_rejects_bad_source_witness :
    ActivityStreams.Scan sampleLib ⟨some ⟨"Note", []⟩⟩ (.string "{}") =
      (⟨some ⟨"Note", []⟩⟩, some ⟨"failed to assert scan to []byte type"⟩) ∧
    ActivityStreamsPerson.Scan sampleLib ⟨some ⟨"Person", []⟩⟩ (.bytes []) =
      (⟨some ⟨"Person", []⟩⟩, some ⟨"unexpected end of JSON input"⟩) ∧
    ActivityStreamsOrderedCollectionPage.Scan sampleLib ⟨none⟩ .null =
      (⟨none⟩, some ⟨"failed to assert scan to []byte type"⟩) :=
  ⟨(activityStreams_scan_rejects_bad_source sampleLib).1 _ (.string "{}")
      (by intro b h; cases h),
   (activityStreams_scan_rejects_bad_source sampleLib).2.2.2.1 _ []
      ⟨"unexpected end of JSON input"⟩ rfl,
   (activityStreams_scan_rejects_bad_source sampleLib).2.2.2.2.2.2.1 _ .null
      (by intro b h; cases h)⟩

/-! ## Transaction lifecycle -/

/-- C13: no Outboxes operation begins, commits or rolls back a transaction:
whatever the database answers (success or error), the transaction an operation
leaves behind is the caller's transaction with the same lifecycle status and one
more executed statement, the operation's own prepared statement. -/
theorem outboxes_leave_transaction_open (lib : Lib) (i : Outboxes) (tx : Tx) :
    (∀ (actor : url.URL) (outbox : ActivityStreamsOrderedCollection),
      ∃ args, (i.Create tx actor outbox).2 = tx.afterCall ⟨.exec, i.insertOutbox, args⟩) ∧
    (∀ actor item : url.URL,
      ∃ args, (i.ContainsForActor lib tx actor item).2 =
        tx.afterCall ⟨.query, i.outboxContainsForActor, args⟩) ∧
    (∀ inbox item : url.URL,
      ∃ args, (i.Contains lib tx inbox item).2 = tx.afterCall ⟨.query, i.outboxContains, args⟩) ∧
    (∀ (outbox : url.URL) (min max : Int),
      ∃ args, (i.GetPage lib tx outbox min max).2 = tx.afterCall ⟨.query, i.getOutbox, args⟩) ∧
    (∀ (outbox : url.URL) (min max : Int),
      ∃ args, (i.GetPublicPage lib tx outbox min max).2 =
        tx.afterCall ⟨.query, i.getPublicOutbox, args⟩) ∧
    (∀ (outbox : url.URL) (n : Int),
      ∃ args, (i.GetLastPage lib tx outbox n).2 = tx.afterCall ⟨.query, i.getLastPage, args⟩) ∧
    (∀ (outbox : url.URL) (n : Int),
      ∃ args, (i.GetPublicLastPage lib tx outbox n).2 =
        tx.afterCall ⟨.query, i.getPublicLastPage, args⟩) ∧
    (∀ outbox item : url.URL,
      ∃ args, (i.PrependOutboxItem tx outbox item).2 =
        tx.afterCall ⟨.exec, i.prependOutboxItem, args⟩) ∧
    (∀ outbox item : url.URL,
      ∃ args, (i.DeleteOutboxItem tx outbox item).2 =
        tx.afterCall ⟨.exec, i.deleteOutboxItem, args⟩) ∧
    (∀ inbox : url.URL,
      ∃ args, (i.OutboxForInbox lib tx inbox).2 = tx.afterCall ⟨.query, i.outboxForInbox, args⟩) ∧
    (∀ c : Call, (tx.afterCall c).status = tx.status) := by
  refine ⟨?_, ?_, ?_, ?_, ?_, ?_, ?_, ?_, ?_, ?_, fun _ => rfl⟩
  · intro actor outbox
    exact ⟨_, rfl⟩
  · intro actor item
    refine ⟨[.str actor.String, .str item.String], ?_⟩
    unfold Outboxes.ContainsForActor Tx.QueryContext
    cases tx.driver.query tx.calls i.outboxContainsForActor
      [.str actor.String, .str item.String] <;> rfl
  · intro inbox item
    refine ⟨[.str inbox.String, .str item.String], ?_⟩
    unfold Outboxes.Contains Tx.QueryContext
    cases tx.driver.query tx.calls i.outboxContains
      [.str inbox.String, .str item.String] <;> rfl
  · intro outbox min max
    refine ⟨[.str outbox.String, .int min, .int (intSub max 1)], ?_⟩
    unfold Outboxes.GetPage Tx.QueryContext
    cases tx.driver.query tx.calls i.getOutbox
      [.str outbox.String, .int min, .int (intSub max 1)] <;> rfl
  · intro outbox min max
    refine ⟨[.str outbox.String, .int min, .int (intSub max 1)], ?_⟩
    unfold Outboxes.GetPublicPage Tx.QueryContext
    cases tx.driver.query tx.calls i.getPublicOutbox
      [.str outbox.String, .int min, .int (intSub max 1)] <;> rfl
  · intro outbox n
    refine ⟨[.str outbox.String, .int n], ?_⟩
    unfold Outboxes.GetLastPage Tx.QueryContext
    cases tx.driver.query tx.calls i.getLastPage [.str outbox.String, .int n] <;> rfl
  · intro outbox n
    refine ⟨[.str outbox.String, .int n], ?_⟩
    unfold Outboxes.GetPublicLastPage Tx.QueryContext
    cases tx.driver.query tx.calls i.getPublicLastPage [.str outbox.String, .int n] <;> rfl
  · intro outbox item
    exact ⟨_, rfl⟩
  · intro outbox item
    exact ⟨_, rfl⟩
  · intro inbox
    refine ⟨[.str inbox.String], ?_⟩
    unfold Outboxes.OutboxForInbox Tx.QueryContext
    cases tx.driver.query tx.calls i.outboxForInbox [.str inbox.String] <;> rfl

/-! ## `emptyOrderedCollection` -/

/-- C14: for every id, first and last IRI, `emptyOrderedCollection` returns a
collection whose totalItems is 0, whose orderedItems property is set and has no
entries, so that the total count equals the number of items, and whose id,
first and last properties hold the given id, first and last IRIs. -/
theorem emptyOrderedCollection_is_empty (id first last : url.URL) :
    (emptyOrderedCollection id first last).ActivityStreamsTotalItems = some ⟨some 0⟩ ∧
    (emptyOrderedCollection id first last).ActivityStreamsOrderedItems = some ⟨[]⟩ ∧
    (∃ (n : Int) (items : List url.URL),
      (emptyOrderedCollection id first last).ActivityStreamsTotalItems = some ⟨some n⟩ ∧
      (emptyOrderedCollection id first last).ActivityStreamsOrderedItems = some ⟨items⟩ ∧
      n = items.length) ∧
    (emptyOrderedCollection id first last).JSONLDId = some ⟨some id⟩ ∧
    (emptyOrderedCollection id first last).ActivityStreamsFirst = some ⟨some first⟩ ∧
    (emptyOrderedCollection id first last).ActivityStreamsLast = some ⟨some last⟩ :=
  ⟨rfl, rfl, ⟨0, [], rfl, rfl, rfl⟩, rfl, rfl, rfl⟩

/-! ## Scopes of the example application -/

/-- C15: evaluation of the code where it departs from its documentation. Each
of `ScopePermitsPostOutbox`, `ScopePermitsPrivateGetInbox` and
`ScopePermitsPrivateGetOutbox` returns a nil error for every scope, refuses the
scope "loggedin" and permits the scope "all"; it permits exactly its own scope
name ("postOutbox", "getInbox", "getOutbox") and "all". -/
theorem scopePermits_refuses_loggedin :
    App.ScopePermitsPostOutbox "loggedin" = (false, none) ∧
    App.ScopePermitsPrivateGetInbox "loggedin" = (false, none) ∧
    App.ScopePermitsPrivateGetOutbox "loggedin" = (false, none) ∧
    App.ScopePermitsPostOutbox "all" = (true, none) ∧
    App.ScopePermitsPrivateGetInbox "all" = (true, none) ∧
    App.ScopePermitsPrivateGetOutbox "all" = (true, none) ∧
    (∀ scope : String,
      (App.ScopePermitsPostOutbox scope).2 = none ∧
      ((App.ScopePermitsPostOutbox scope).1 = true ↔ scope = "postOutbox" ∨ scope = "all") ∧
      (App.ScopePermitsPrivateGetInbox scope).2 = none ∧
      ((App.ScopePermitsPrivateGetInbox scope).1 = true ↔ scope = "getInbox" ∨ scope = "all") ∧
      (App.ScopePermitsPrivateGetOutbox scope).2 = none ∧
      ((App.ScopePermitsPrivateGetOutbox scope).1 = true ↔
        scope = "getOutbox" ∨ scope = "all")) := by
  refine ⟨by decide, by decide, by decide, by decide, by decide, by decide, ?_⟩
  intro scope
  simp [App.ScopePermitsPostOutbox, App.ScopePermitsPrivateGetInbox,
    App.ScopePermitsPrivateGetOutbox]

/-! ## Default configuration -/

/-- C17: `defaultActivityPubConfig` sets MaxInboxForwardingRecursionDepth = 50
and MaxDeliveryRecursionDepth = 50, both positive, and `defaultConfig` for
"postgres" succeeds with a configuration whose ActivityPub section is
`defaultActivityPubConfig`, carrying these two values unchanged. -/
theorem defaultConfig_recursion_depths (bcryptDefaultCost : Int) :
    defaultActivityPubConfig.MaxInboxForwardingRecursionDepth = 50 ∧
    defaultActivityPubConfig.MaxDeliveryRecursionDepth = 50 ∧
    0 < defaultActivityPubConfig.MaxInboxForwardingRecursionDepth ∧
    0 < defaultActivityPubConfig.MaxDeliveryRecursionDepth ∧
    (∃ c : config.Config,
      defaultConfig bcryptDefaultCost "postgres" = (some c, none) ∧
      c.ActivityPubConfig = defaultActivityPubConfig ∧
      c.ActivityPubConfig.MaxInboxForwardingRecursionDepth = 50 ∧
      c.ActivityPubConfig.MaxDeliveryRecursionDepth = 50) := by
  refine ⟨rfl, rfl, by decide, by decide, ?_⟩
  refine ⟨{ ServerConfig := defaultServerConfig bcryptDefaultCost
            OAuthConfig := defaultOAuth2Config
            DatabaseConfig := ⟨"postgres", 2, 10, defaultPostgresConfig⟩
            ActivityPubConfig := defaultActivityPubConfig }, ?_, rfl, rfl, rfl⟩
  simp [defaultConfig, defaultDatabaseConfig, postgresDB]

/-! ## Delivery attempts -/

/-- C16: every delivery attempt created through InsertAttempt starts in the
pending state: for every fromActor, toActor and payload the operation executes
the dialect's InsertAttempt statement once, binding (fromActor, toActor,
payload, pending) to its documented parameters (FromID, ToActor, Payload,
State), so the one attempt it creates is stored with state pending. -/
theorem insertAttempt_starts_pending (insertAttempt : Stmt) (tx : Tx)
    (fromActor toActor : url.URL) (payload : List UInt8) :
    (DeliveryAttempts.InsertAttempt insertAttempt tx fromActor toActor payload).2.calls =
      tx.calls ++ [⟨.query, insertAttempt,
        [.str fromActor.String, .str toActor.String, .bytes payload, .str "pending"]⟩] ∧
    Call.paramTypes ⟨.query, insertAttempt,
        [.str fromActor.String, .str toActor.String, .bytes payload, .str "pending"]⟩ =
      documentedTypes SqlDialect.InsertAttempt.Params ∧
    createdAttempts insertAttempt
        (DeliveryAttempts.InsertAttempt insertAttempt tx fromActor toActor payload).2.calls =
      createdAttempts insertAttempt tx.calls ++
        [⟨fromActor.String, toActor.String, payload, "pending"⟩] := by
  refine ⟨rfl, rfl, ?_⟩
  simp [DeliveryAttempts.InsertAttempt, Tx.QueryContext, createdAttempts, List.filterMap_append,
    storedAttempt, attemptPending]

/-! ## Pages and membership over the modelled outbox statements -/

theorem itemsBetween_nil (n : Nat) (lo hi : Int) : itemsBetween n [] lo hi = [] := rfl

theorem itemsBetween_cons (n : Nat) (x : String) (xs : List String) (lo hi : Int) :
    itemsBetween n (x :: xs) lo hi =
      if lo ≤ (n : Int) ∧ (n : Int) ≤ hi then x :: itemsBetween (n + 1) xs lo hi
      else itemsBetween (n + 1) xs lo hi := by
  unfold itemsBetween
  by_cases h : lo ≤ (n : Int) ∧ (n : Int) ≤ hi
  · simp [List.enumFrom_cons, List.filter_cons, h]
  · simp [List.enumFrom_cons, List.filter_cons, h]

theorem itemsBetween_of_le (l : List String) (n : Nat) (lo hi : Int) (h : lo ≤ (n : Int)) :
    itemsBetween n l lo hi = l.take (hi + 1 - n).toNat := by
  induction l generalizing n with
  | nil => simp [itemsBetween_nil]
  | cons x xs ih =>
    rw [itemsBetween_cons, ih (n + 1) (by push_cast; omega)]
    by_cases hn : (n : Int) ≤ hi
    · have hk : (hi + 1 - (n : Int)).toNat = (hi + 1 - ((n + 1 : Nat) : Int)).toNat + 1 := by
        push_cast; omega
      rw [if_pos ⟨h, hn⟩, hk, List.take_succ_cons]
    · have h0 : (hi + 1 - (n : Int)).toNat = 0 := by omega
      have h1 : (hi + 1 - ((n + 1 : Nat) : Int)).toNat = 0 := by push_cast; omega
      rw [if_neg (fun hh => hn hh.2), h0, h1]
      simp

theorem itemsBetween_of_ge (l : List String) (n : Nat) (lo hi : Int) (h : (n : Int) ≤ lo) :
    itemsBetween n l lo hi = (l.drop (lo - n).toNat).take (hi + 1 - lo).toNat := by
  induction l generalizing n with
  | nil => simp [itemsBetween_nil]
  | cons x xs ih =>
    by_cases hn : (n : Int) = lo
    · rw [itemsBetween_of_le (x :: xs) n lo hi (by omega)]
      have h0 : (lo - (n : Int)).toNat = 0 := by omega
      rw [h0, List.drop_zero, hn]
    · have hlt : (n : Int) < lo := by omega
      have hk : (lo - (n : Int)).toNat = (lo - ((n + 1 : Nat) : Int)).toNat + 1 := by
        push_cast; omega
      rw [itemsBetween_cons, if_neg (fun hh => by omega), ih (n + 1) (by push_cast; omega), hk,
        List.drop_succ_cons]

theorem specGetOutbox_eq_drop_take (st : OutboxStore) (outbox : String) (min max : Int)
    (hmin : 0 ≤ min) :
    specGetOutbox st outbox min (max - 1) =
      ((st outbox).drop min.toNat).take (max - min).toNat := by
  unfold specGetOutbox
  rw [itemsBetween_of_ge (st outbox) 0 min (max - 1) (by simpa using hmin)]
  have h1 : (min - ((0 : Nat) : Int)).toNat = min.toNat := by simp
  have h2 : (max - 1 + 1 - min).toNat = (max - min).toNat := by
    congr 1; omega
  rw [h1, h2]

theorem specStore_append (i : Outboxes) (init : OutboxStore) (calls : List Call) (c : Call) :
    specStore i init (calls ++ [c]) = specEffect i (specStore i init calls) c := by
  simp [specStore, List.foldl_append]

theorem specDriver_getOutbox (i : Outboxes) (encodePage : List String → GoValue)
    (init : OutboxStore) (calls : List Call) (outbox : String) (lo hi : Int) :
    (specDriver i encodePage init).query calls i.getOutbox [.str outbox, .int lo, .int hi] =
      .ok ⟨[[encodePage (specGetOutbox (specStore i init calls) outbox lo hi)]], none⟩ := by
  simp [specDriver]

theorem specDriver_outboxContains (i : Outboxes) (encodePage : List String → GoValue)
    (init : OutboxStore) (calls : List Call) (outbox item : String) :
    (specDriver i encodePage init).query calls i.outboxContains [.str outbox, .str item] =
      .ok ⟨[[.bool (specOutboxContains (specStore i init calls) outbox item)]], none⟩ := by
  simp [specDriver]

theorem codecDecode_ones (d : List String) (cur : List Char) (n k : Nat) :
    (List.replicate k (1 : UInt8)).foldl codecDecodeStep (d, cur, n) = (d, cur, n + k) := by
  induction k generalizing n with
  | zero => rfl
  | succ k ih =>
    rw [List.replicate_succ, List.foldl_cons]
    have hstep : codecDecodeStep (d, cur, n) 1 = (d, cur, n + 1) := by simp [codecDecodeStep]
    rw [hstep, ih]
    congr 2
    omega

theorem codecDecode_chars (d : List String) (cur cs : List Char) :
    (codecEncodeChars cs).foldl codecDecodeStep (d, cur, 0) = (d ++ [String.mk (cur ++ cs)], [], 0) := by
  induction cs generalizing cur with
  | nil => simp [codecEncodeChars, codecDecodeStep]
  | cons c cs ih =>
    have hstep : codecDecodeStep (d, cur, 0 + c.toNat) 0 = (d, cur ++ [c], 0) := by
      simp [codecDecodeStep]
    rw [codecEncodeChars, List.foldl_append, codecDecode_ones, List.foldl_cons, hstep, ih]
    simp

theorem codecDecode_items (d xs : List String) :
    (codecEncodeItems xs).foldl codecDecodeStep (d, [], 0) = (d ++ xs, [], 0) := by
  induction xs generalizing d with
  | nil => simp [codecEncodeItems]
  | cons s xs ih =>
    rw [codecEncodeItems, List.foldl_append, codecDecode_chars, ih]
    simp

theorem codecDecodeItems_encode (xs : List String) :
    codecDecodeItems (codecEncodeItems xs) = xs := by
  simp [codecDecodeItems, codecDecode_items]

theorem filterMap_iri_map_string (xs : List String) :
    (xs.map JSON.string).filterMap JSON.iri? = xs := by
  induction xs with
  | nil => rfl
  | cons x xs ih => simp [List.filterMap_cons, JSON.iri?, ih]

theorem codecLib_decodes (xs : List String) :
    ∃ p, ActivityStreamsOrderedCollectionPage.Scan codecLib ⟨none⟩ (codecEncodePage xs) =
      (p, none) ∧ p.items = xs := by
  refine ⟨⟨some ⟨"OrderedCollectionPage", [("orderedItems", .array (xs.map JSON.string))]⟩⟩,
    ?_, ?_⟩
  · simp [ActivityStreamsOrderedCollectionPage.Scan, unmarshal, codecEncodePage, codecLib,
      sampleLib, codecDecodeItems_encode]
  · exact filterMap_iri_map_string xs

/-- C19: over the modelled `GetOutbox` statement and a page codec that reads
back the items that were stored, for every outbox and all `int`s min, max with
0 <= min < max, `GetPage` returns with a nil error a page whose items are the
first max-min of the outbox's items from position min onward: exactly max-min
items, or fewer only when fewer items remain from position min onward (and then
all of them), the k-th item of the page being the item at position min+k of the
collection. -/
theorem getPage_returns_requested_range (lib : Lib) (i : Outboxes)
    (encodePage : List String → GoValue) (init : OutboxStore) (tx : Tx) (outbox : url.URL)
    (min max : Int)
    (hdrv : tx.driver = specDriver i encodePage init)
    (hcodec : ∀ xs : List String, ∃ p,
      ActivityStreamsOrderedCollectionPage.Scan lib ⟨none⟩ (encodePage xs) = (p, none) ∧
      p.items = xs)
    (hmin : 0 ≤ min) (hlt : min < max) (hmax : max ≤ maxInt) :
    ∃ p : ActivityStreamsOrderedCollectionPage,
      (i.GetPage lib tx outbox min max).1 = (p, none) ∧
      p.items = ((specStore i init tx.calls outbox.String).drop min.toNat).take
        (max - min).toNat ∧
      ((p.items.length : Int) = max - min ∨
        ((p.items.length : Int) < max - min ∧
          ((specStore i init tx.calls outbox.String).length : Int) - min < max - min ∧
          p.items = (specStore i init tx.calls outbox.String).drop min.toNat)) ∧
      (∀ k : Nat, k < p.items.length →
        p.items[k]? = (specStore i init tx.calls outbox.String)[min.toNat + k]?) := by
  have hw : intSub max 1 = max - 1 := by
    unfold intSub
    exact wrapInt_of_mem _ (by unfold minInt; omega) (by unfold maxInt at *; omega)
  obtain ⟨p, hdec, hitems⟩ := hcodec
    (((specStore i init tx.calls outbox.String).drop min.toNat).take (max - min).toNat)
  have hq : tx.driver.query tx.calls i.getOutbox
      [.str outbox.String, .int min, .int (intSub max 1)] =
      .ok ⟨[[encodePage (((specStore i init tx.calls outbox.String).drop min.toNat).take
        (max - min).toNat)]], none⟩ := by
    rw [hdrv, specDriver_getOutbox, hw, specGetOutbox_eq_drop_take _ _ _ _ hmin]
  refine ⟨p, ?_, hitems, ?_, ?_⟩
  · simp only [Outboxes.GetPage, Tx.QueryContext, hq]
    rw [enforceOneRow_single _ _ _ ⟨none⟩ p _ rfl (scan1_ok lib _ _ ⟨none⟩ p hdec)]
  · have hlen := congrArg List.length hitems
    simp only [List.length_take, List.length_drop] at hlen
    by_cases hc : (max - min).toNat ≤
        (specStore i init tx.calls outbox.String).length - min.toNat
    · left
      omega
    · right
      refine ⟨by omega, by omega, ?_⟩
      rw [hitems]
      apply List.take_of_length_le
      simp only [List.length_drop]
      omega
  · intro k hk
    rw [hitems] at hk ⊢
    simp only [List.length_take, List.length_drop] at hk
    rw [List.getElem?_take_of_lt (by omega), List.getElem?_drop]

theorem getPage_returns_requested_range_witness :
    ∃ p : ActivityStreamsOrderedCollectionPage,
      (sampleOutboxes.GetPage codecLib codecTxTwoItems outboxA 0 1).1 = (p, none) ∧
      p.items = [item2.String] ∧
      specStore sampleOutboxes emptyStore codecTxTwoItems.calls outboxA.String =
        [item2.String, item1.String] :=
  match getPage_returns_requested_range codecLib sampleOutboxes codecEncodePage emptyStore
      codecTxTwoItems outboxA 0 1 rfl codecLib_decodes (by decide) (by decide) (by decide) with
  | ⟨p, h1, h2, _⟩ => ⟨p, h1, h2.trans rfl, rfl⟩

/-- C20: over the modelled statements, for every outbox and item and within one
transaction: `PrependOutboxItem(outbox, item)` succeeds and `Contains(outbox,
item)` run next returns true with a nil error; `DeleteOutboxItem(outbox, item)`
succeeds and `Contains(outbox, item)` run next returns false with a nil
error. -/
theorem contains_after_prepend_and_delete (lib : Lib) (i : Outboxes)
    (encodePage : List String → GoValue) (init : OutboxStore) (tx : Tx) (outbox item : url.URL)
    (hdrv : tx.driver = specDriver i encodePage init)
    (hbool : ∀ b : Bool, lib.convertAssignBool (.bool b) = .ok b)
    (hstmt : i.prependOutboxItem ≠ i.deleteOutboxItem) :
    (i.PrependOutboxItem tx outbox item).1 = none ∧
    (i.Contains lib (i.PrependOutboxItem tx outbox item).2 outbox item).1 = (true, none) ∧
    (i.DeleteOutboxItem tx outbox item).1 = none ∧
    (i.Contains lib (i.DeleteOutboxItem tx outbox item).2 outbox item).1 = (false, none) := by
  refine ⟨?_, ?_, ?_, ?_⟩
  · simp [Outboxes.PrependOutboxItem, Tx.ExecContext, hdrv, specDriver]
  · have hq : (i.PrependOutboxItem tx outbox item).2.driver.query
        (i.PrependOutboxItem tx outbox item).2.calls i.outboxContains
        [.str outbox.String, .str item.String] = .ok ⟨[[.bool true]], none⟩ := by
      simp only [Outboxes.PrependOutboxItem, Tx.ExecContext, hdrv, specDriver_outboxContains,
        specStore_append]
      simp [specEffect, specOutboxContains, specPrependOutboxItem]
    simp only [Outboxes.Contains, Tx.QueryContext, hq]
    rw [enforceOneRow_single _ _ _ false true _ rfl (scan1_ok lib _ _ false true
      (boolDest_ok lib _ false true (hbool true)))]
  · simp [Outboxes.DeleteOutboxItem, Tx.ExecContext, hdrv, specDriver]
  · have hq : (i.DeleteOutboxItem tx outbox item).2.driver.query
        (i.DeleteOutboxItem tx outbox item).2.calls i.outboxContains
        [.str outbox.String, .str item.String] = .ok ⟨[[.bool false]], none⟩ := by
      simp only [Outboxes.DeleteOutboxItem, Tx.ExecContext, hdrv, specDriver_outboxContains,
        specStore_append]
      simp [specEffect, specOutboxContains, specDeleteOutboxItem, Ne.symm hstmt]
    simp only [Outboxes.Contains, Tx.QueryContext, hq]
    rw [enforceOneRow_single _ _ _ false false _ rfl (scan1_ok lib _ _ false false
      (boolDest_ok lib _ false false (hbool false)))]

theorem contains_after_prepend_and_delete_witness :
    (sampleOutboxes.Contains sampleLib
      (sampleOutboxes.PrependOutboxItem specTx outboxA item1).2 outboxA item1).1 = (true, none) ∧
    (sampleOutboxes.Contains sampleLib
      (sampleOutboxes.DeleteOutboxItem specTxTwoItems outboxA item1).2 outboxA item1).1 =
        (false, none) :=
  ⟨(contains_after_prepend_and_delete sampleLib sampleOutboxes lengthEncodePage emptyStore
      specTx outboxA item1 rfl (by intro b; rfl) (by decide)).2.1,
   (contains_after_prepend_and_delete sampleLib sampleOutboxes lengthEncodePage emptyStore
      specTxTwoItems outboxA item1 rfl (by intro b; rfl) (by decide)).2.2.2⟩

/-! ## Invocations of the callback of `enforceOneRow` -/

theorem recordCalls_apply {σ : Type} (fn : Row → σ → σ × Option GoError) (row : Row) (s s' : σ)
    (l : List Row) (e : Option GoError) (h : fn row s = (s', e)) :
    recordCalls fn row (s, l) = ((s', l ++ [row]), e) := by
  simp [recordCalls, h]

theorem enforceOneRow_recordCalls {σ : Type} (r : Rows) (name : String)
    (fn : Row → σ → σ × Option GoError) (s : σ) :
    enforceOneRow r name (recordCalls fn) (s, []) =
      (((enforceOneRow r name fn s).1, r.rows.take 1), (enforceOneRow r name fn s).2) := by
  obtain ⟨rows, err⟩ := r
  match rows with
  | [] =>
    rw [enforceOneRow_nil ⟨[], err⟩ name _ _ rfl, enforceOneRow_nil ⟨[], err⟩ name fn s rfl]
    rfl
  | row :: rest =>
    rcases hfn : fn row s with ⟨s', _ | e⟩
    · match rest with
      | [] =>
        rw [enforceOneRow_single ⟨[row], err⟩ name _ (s, []) (s', [row]) row rfl
            (recordCalls_apply fn row s s' [] none hfn),
          enforceOneRow_single ⟨[row], err⟩ name fn s s' row rfl hfn]
        rfl
      | row2 :: rest2 =>
        rw [enforceOneRow_second_row ⟨row :: row2 :: rest2, err⟩ name _ (s, []) (s', [row])
            row row2 rest2 rfl (recordCalls_apply fn row s s' [] none hfn),
          enforceOneRow_second_row ⟨row :: row2 :: rest2, err⟩ name fn s s' row row2 rest2 rfl hfn]
        rfl
    · rw [enforceOneRow_first_fails ⟨row :: rest, err⟩ name _ (s, []) (s', [row]) row rest e rfl
          (recordCalls_apply fn row s s' [] (some e) hfn),
        enforceOneRow_first_fails ⟨row :: rest, err⟩ name fn s s' row rest e rfl hfn]
      rfl

/-- C21, as stated, fails: on a result set that delivers exactly one row and
then reports an iteration error, with a callback that succeeds, the callback is
invoked once and `enforceOneRow` returns the iterator's error, not nil. -/
theorem enforceOneRow_one_row_iterator_error_counterexample :
    oneRowThenError.rows.length = 1 ∧
    scan1 sampleLib (boolDest sampleLib) [.bool true] false = (true, none) ∧
    enforceOneRow oneRowThenError "Outboxes.Contains"
      (recordCalls (fun r b => scan1 sampleLib (boolDest sampleLib) r b)) (false, []) =
        ((true, [[.bool true]]), some sampleErr) ∧
    some sampleErr ≠ (none : Option GoError) := by
  refine ⟨rfl, rfl, rfl, by simp⟩

/-- C21, amended: `enforceOneRow` invokes the scan callback at most once, and
only on the first row. For zero rows the callback is never invoked and the
result is the row iterator's own error (nil when iteration was clean); for
exactly one row with a succeeding callback the callback is invoked exactly once
and the result is again the row iterator's own error (nil when iteration was
clean); for two or more rows the callback has been invoked on the first row
only before the error is returned. Recording the invocations does not change
what `enforceOneRow` returns. -/
theorem enforceOneRow_invokes_callback_once {σ : Type} (r : Rows) (name : String)
    (fn : Row → σ → σ × Option GoError) (s : σ) :
    (enforceOneRow r name (recordCalls fn) (s, [])).1.2 = r.rows.take 1 ∧
    ((enforceOneRow r name (recordCalls fn) (s, [])).1.1,
      (enforceOneRow r name (recordCalls fn) (s, [])).2) = enforceOneRow r name fn s ∧
    (r.rows = [] →
      enforceOneRow r name (recordCalls fn) (s, []) = ((s, []), r.err)) ∧
    (∀ (row : Row) (s' : σ), r.rows = [row] → fn row s = (s', none) →
      enforceOneRow r name (recordCalls fn) (s, []) = ((s', [row]), r.err) ∧
      (r.err = none → (enforceOneRow r name fn s).2 = none)) ∧
    (∀ (row1 row2 : Row) (rest : List Row), r.rows = row1 :: row2 :: rest →
      (enforceOneRow r name (recordCalls fn) (s, [])).1.2 = [row1] ∧
      (enforceOneRow r name (recordCalls fn) (s, [])).2 ≠ none) ∧
    (∀ (row1 row2 : Row) (rest : List Row) (s' : σ), r.rows = row1 :: row2 :: rest →
      fn row1 s = (s', none) →
      enforceOneRow r name (recordCalls fn) (s, []) =
        ((s', [row1]), some (multipleRowsError name))) := by
  have hrec := enforceOneRow_recordCalls r name fn s
  refine ⟨?_, ?_, ?_, ?_, ?_, ?_⟩
  · rw [hrec]
  · rw [hrec]
  · intro h
    rw [hrec, enforceOneRow_nil r name fn s h, h]
    rfl
  · intro row s' h hfn
    rw [hrec, enforceOneRow_single r name fn s s' row h hfn, h]
    exact ⟨rfl, fun hc => hc⟩
  · intro row1 row2 rest h
    rw [hrec, h]
    refine ⟨rfl, ?_⟩
    exact enforceOneRow_many_ne_none r name fn s (by rw [h]; simp)
  · intro row1 row2 rest s' h hfn
    rw [hrec, enforceOneRow_second_row r name fn s s' row1 row2 rest h hfn, h]
    rfl

theorem enforceOneRow_invokes_callback_once_witness :
    enforceOneRow noRows "Outboxes.Contains"
      (recordCalls (fun r b => scan1 sampleLib (boolDest sampleLib) r b)) (false, []) =
        ((false, []), noRows.err) ∧
    enforceOneRow (oneBoolRow true) "Outboxes.Contains"
      (recordCalls (fun r b => scan1 sampleLib (boolDest sampleLib) r b)) (false, []) =
        ((true, [[.bool true]]), (oneBoolRow true).err) ∧
    enforceOneRow twoRows "Outboxes.Contains"
      (recordCalls (fun r b => scan1 sampleLib (boolDest sampleLib) r b)) (false, []) =
        ((true, [[.bool true]]), some (multipleRowsError "Outboxes.Contains")) :=
  ⟨(enforceOneRow_invokes_callback_once noRows "Outboxes.Contains"
      (fun r b => scan1 sampleLib (boolDest sampleLib) r b) false).2.2.1 rfl,
   ((enforceOneRow_invokes_callback_once (oneBoolRow true) "Outboxes.Contains"
      (fun r b => scan1 sampleLib (boolDest sampleLib) r b) false).2.2.2.1
      [.bool true] true rfl rfl).1,
   (enforceOneRow_invokes_callback_once twoRows "Outboxes.Contains"
      (fun r b => scan1 sampleLib (boolDest sampleLib) r b) false).2.2.2.2.2
      [.bool true] [.bool false] [] true rfl rfl⟩

/-! ## Statements prepared for the Outboxes operations -/

theorem prepareStmtPairs_ok {M : Type} (db : DB) (ps : List (stmtPair M)) (m m' : M)
    (h : prepareStmtPairs db ps m = (m', none)) :
    m' = ps.foldl (fun m p => p.stmt m ⟨p.sql⟩) m := by
  induction ps generalizing m with
  | nil =>
    simp only [prepareStmtPairs, Prod.mk.injEq, and_true] at h
    simp [h]
  | cons p rest ih =>
    simp only [prepareStmtPairs, DB.Prepare] at h
    cases hp : db.prepareError p.sql with
    | some e => rw [hp] at h; simp at h
    | none =>
      rw [hp] at h
      simpa using ih _ h

/-- C22: after a successful `Prepare` with dialect s, every field holds the
statement prepared from the text of its own dialect method, and each Outboxes
operation executes exactly one statement, that one: Create s.InsertOutbox(),
ContainsForActor s.OutboxContainsForActor(), Contains s.OutboxContains(),
GetPage s.GetOutbox(), GetPublicPage s.GetPublicOutbox(), GetLastPage
s.GetOutboxLastPage(), GetPublicLastPage s.GetPublicOutboxLastPage(),
PrependOutboxItem s.PrependOutboxItem(), DeleteOutboxItem s.DeleteOutboxItem(),
OutboxForInbox s.OutboxForInbox(). -/
theorem prepare_binds_own_statements (lib : Lib) (i i' : Outboxes) (db : DB) (s : SqlDialect)
    (tx : Tx) (hprep : i.Prepare db s = (i', none)) :
    i' = ⟨⟨s.InsertOutbox⟩, ⟨s.OutboxContainsForActor⟩, ⟨s.OutboxContains⟩, ⟨s.GetOutbox⟩,
      ⟨s.GetPublicOutbox⟩, ⟨s.GetOutboxLastPage⟩, ⟨s.GetPublicOutboxLastPage⟩,
      ⟨s.PrependOutboxItem⟩, ⟨s.DeleteOutboxItem⟩, ⟨s.OutboxForInbox⟩⟩ ∧
    (∀ (actor : url.URL) (outbox : ActivityStreamsOrderedCollection),
      ∃ args, (i'.Create tx actor outbox).2 = tx.afterCall ⟨.exec, ⟨s.InsertOutbox⟩, args⟩) ∧
    (∀ actor item : url.URL,
      ∃ args, (i'.ContainsForActor lib tx actor item).2 =
        tx.afterCall ⟨.query, ⟨s.OutboxContainsForActor⟩, args⟩) ∧
    (∀ inbox item : url.URL,
      ∃ args, (i'.Contains lib tx inbox item).2 =
        tx.afterCall ⟨.query, ⟨s.OutboxContains⟩, args⟩) ∧
    (∀ (outbox : url.URL) (min max : Int),
      ∃ args, (i'.GetPage lib tx outbox min max).2 = tx.afterCall ⟨.query, ⟨s.GetOutbox⟩, args⟩) ∧
    (∀ (outbox : url.URL) (min max : Int),
      ∃ args, (i'.GetPublicPage lib tx outbox min max).2 =
        tx.afterCall ⟨.query, ⟨s.GetPublicOutbox⟩, args⟩) ∧
    (∀ (outbox : url.URL) (n : Int),
      ∃ args, (i'.GetLastPage lib tx outbox n).2 =
        tx.afterCall ⟨.query, ⟨s.GetOutboxLastPage⟩, args⟩) ∧
    (∀ (outbox : url.URL) (n : Int),
      ∃ args, (i'.GetPublicLastPage lib tx outbox n).2 =
        tx.afterCall ⟨.query, ⟨s.GetPublicOutboxLastPage⟩, args⟩) ∧
    (∀ outbox item : url.URL,
      ∃ args, (i'.PrependOutboxItem tx outbox item).2 =
        tx.afterCall ⟨.exec, ⟨s.PrependOutboxItem⟩, args⟩) ∧
    (∀ outbox item : url.URL,
      ∃ args, (i'.DeleteOutboxItem tx outbox item).2 =
        tx.afterCall ⟨.exec, ⟨s.DeleteOutboxItem⟩, args⟩) ∧
    (∀ inbox : url.URL,
      ∃ args, (i'.OutboxForInbox lib tx inbox).2 =
        tx.afterCall ⟨.query, ⟨s.OutboxForInbox⟩, args⟩) := by
  have hi : i' = ⟨⟨s.InsertOutbox⟩, ⟨s.OutboxContainsForActor⟩, ⟨s.OutboxContains⟩,
      ⟨s.GetOutbox⟩, ⟨s.GetPublicOutbox⟩, ⟨s.GetOutboxLastPage⟩, ⟨s.GetPublicOutboxLastPage⟩,
      ⟨s.PrependOutboxItem⟩, ⟨s.DeleteOutboxItem⟩, ⟨s.OutboxForInbox⟩⟩ := by
    rw [prepareStmtPairs_ok db _ i i' hprep]
    rfl
  subst hi
  refine ⟨rfl, ?_, ?_, ?_, ?_, ?_, ?_, ?_, ?_, ?_, ?_⟩
  · intro actor outbox
    exact ⟨_, rfl⟩
  · intro actor item
    refine ⟨[.str actor.String, .str item.String], ?_⟩
    unfold Outboxes.ContainsForActor Tx.QueryContext
    cases tx.driver.query tx.calls ⟨s.OutboxContainsForActor⟩
      [.str actor.String, .str item.String] <;> rfl
  · intro inbox item
    refine ⟨[.str inbox.String, .str item.String], ?_⟩
    unfold Outboxes.Contains Tx.QueryContext
    cases tx.driver.query tx.calls ⟨s.OutboxContains⟩
      [.str inbox.String, .str item.String] <;> rfl
  · intro outbox min max
    refine ⟨[.str outbox.String, .int min, .int (intSub max 1)], ?_⟩
    unfold Outboxes.GetPage Tx.QueryContext
    cases tx.driver.query tx.calls ⟨s.GetOutbox⟩
      [.str outbox.String, .int min, .int (intSub max 1)] <;> rfl
  · intro outbox min max
    refine ⟨[.str outbox.String, .int min, .int (intSub max 1)], ?_⟩
    unfold Outboxes.GetPublicPage Tx.QueryContext
    cases tx.driver.query tx.calls ⟨s.GetPublicOutbox⟩
      [.str outbox.String, .int min, .int (intSub max 1)] <;> rfl
  · intro outbox n
    refine ⟨[.str outbox.String, .int n], ?_⟩
    unfold Outboxes.GetLastPage Tx.QueryContext
    cases tx.driver.query tx.calls ⟨s.GetOutboxLastPage⟩ [.str outbox.String, .int n] <;> rfl
  · intro outbox n
    refine ⟨[.str outbox.String, .int n], ?_⟩
    unfold Outboxes.GetPublicLastPage Tx.QueryContext
    cases tx.driver.query tx.calls ⟨s.GetPublicOutboxLastPage⟩
      [.str outbox.String, .int n] <;> rfl
  · intro outbox item
    exact ⟨_, rfl⟩
  · intro outbox item
    exact ⟨_, rfl⟩
  · intro inbox
    refine ⟨[.str inbox.String], ?_⟩
    unfold Outboxes.OutboxForInbox Tx.QueryContext
    cases tx.driver.query tx.calls ⟨s.OutboxForInbox⟩ [.str inbox.String] <;> rfl

theorem prepare_binds_own_statements_witness :
    (sampleOutboxes.Prepare sampleDB sampleDialect).2 = none ∧
    (sampleOutboxes.Prepare sampleDB sampleDialect).1.getPublicLastPage =
      ⟨"get public outbox last page"⟩ ∧
    (sampleOutboxes.Prepare sampleDB sampleDialect).1.getOutbox = ⟨"get outbox"⟩ :=
  have h := (prepare_binds_own_statements sampleLib sampleOutboxes
    (sampleOutboxes.Prepare sampleDB sampleDialect).1 sampleDB sampleDialect
    (sampleTx (.ok noRows) none) rfl).1
  ⟨rfl, by rw [h]; rfl, by rw [h]; rfl⟩

/-! ## `NullDuration.Value` followed by `Scan` -/

/-- C23: evaluation of the code where it departs from the claim. `Value` of a
valid NullDuration returns its Duration with dynamic type `time.Duration`, on
which the assertion `src.(int64)` of `Scan` fails: `Scan` returns the "failed to
assert scan to int64 type" error and leaves the destination unchanged. `Value`
of a NullDuration that is not valid returns nil, and `Scan` of it succeeds with
Duration 0 and Valid false. -/
theorem nullDuration_value_then_scan :
    (∀ (t : Int) (d : NullDuration),
      (NullDuration.Value ⟨t, true⟩) = (.duration t, none) ∧
      NullDuration.Scan d (NullDuration.Value ⟨t, true⟩).1 =
        (d, some ⟨"failed to assert scan to int64 type"⟩)) ∧
    (∀ (t : Int) (d : NullDuration),
      (NullDuration.Value ⟨t, false⟩) = (.null, none) ∧
      NullDuration.Scan d (NullDuration.Value ⟨t, false⟩).1 =
        ({ Duration := 0, Valid := false }, none)) ∧
    NullDuration.Scan ⟨0, false⟩ (NullDuration.Value ⟨5, true⟩).1 =
      (⟨0, false⟩, some ⟨"failed to assert scan to int64 type"⟩) :=
  ⟨fun _ _ => ⟨rfl, rfl⟩, fun _ _ => ⟨rfl, rfl⟩, rfl⟩

/-! ## `createRSAPrivateKey` -/

/-- C24: for every n < 1024 `createRSAPrivateKey` returns a nil key and the
non-nil "forbidden" error without requesting a key from the generator; for
every n >= 1024 it requests an n-bit key and returns exactly what
`rsa.GenerateKey` returns. -/
theorem createRSAPrivateKey_size_check (g : KeyGen) (n : Int) :
    (n < 1024 →
      createRSAPrivateKey g n =
        ((none, some ⟨"Creating a key of size < 1024 is forbidden: " ++ toString n⟩), g) ∧
      (createRSAPrivateKey g n).2.requests = g.requests) ∧
    (1024 ≤ n →
      createRSAPrivateKey g n = g.GenerateKey n ∧
      (createRSAPrivateKey g n).1 = g.generate g.requests n ∧
      (createRSAPrivateKey g n).2.requests = g.requests ++ [n]) := by
  constructor
  · intro h
    simp [createRSAPrivateKey, h]
  · intro h
    have h' : ¬ n < 1024 := by omega
    simp [createRSAPrivateKey, h', KeyGen.GenerateKey]

theorem createRSAPrivateKey_size_check_witness :
    (createRSAPrivateKey sampleKeyGen 1023 =
      ((none, some ⟨"Creating a key of size < 1024 is forbidden: " ++ toString (1023 : Int)⟩),
        sampleKeyGen)) ∧
    (createRSAPrivateKey sampleKeyGen 1023).2.requests = [] ∧
    (createRSAPrivateKey sampleKeyGen 1024).1 = (some ⟨3233, 17, 413⟩, none) ∧
    (createRSAPrivateKey sampleKeyGen 1024).2.requests = [1024] :=
  ⟨((createRSAPrivateKey_size_check sampleKeyGen 1023).1 (by decide)).1,
   ((createRSAPrivateKey_size_check sampleKeyGen 1023).1 (by decide)).2,
   ((createRSAPrivateKey_size_check sampleKeyGen 1024).2 (by decide)).2.1,
   ((createRSAPrivateKey_size_check sampleKeyGen 1024).2 (by decide)).2.2⟩

/-! ## Debug names of the Outboxes lookups -/

/-- C25: evaluation of the code where it departs from the claim. When two rows
are retrieved, `GetLastPage` fails with a message that begins with
"Outboxes.GetPage" and `GetPublicLastPage` with one that begins with
"Outboxes.GetPublicPage", not with their own names; `Contains`,
`ContainsForActor`, `GetPage`, `GetPublicPage` and `OutboxForInbox` fail with
a message that begins with "Outboxes." and their own name. -/
theorem lastPage_error_names_other_method :
    (sampleOutboxes.GetLastPage sampleLib (sampleTx (.ok twoLastPageRows) none)
      sampleIRI 10).1.2 =
      some ⟨"Outboxes.GetPage: multiple database rows retrieved when enforcing one row"⟩ ∧
    (sampleOutboxes.GetPublicLastPage sampleLib (sampleTx (.ok twoLastPageRows) none)
      sampleIRI 10).1.2 =
      some ⟨"Outboxes.GetPublicPage: multiple database rows retrieved when enforcing one row"⟩ ∧
    ¬ ("Outboxes.GetLastPage".toList <+:
      "Outboxes.GetPage: multiple database rows retrieved when enforcing one row".toList) ∧
    ¬ ("Outboxes.GetPublicLastPage".toList <+:
      "Outboxes.GetPublicPage: multiple database rows retrieved when enforcing one row".toList) ∧
    "Outboxes.Contains".toList <+:
      "Outboxes.Contains: multiple database rows retrieved when enforcing one row".toList ∧
    (sampleOutboxes.Contains sampleLib (sampleTx (.ok twoRows) none) sampleIRI sampleIRI).1.2 =
      some ⟨"Outboxes.Contains: multiple database rows retrieved when enforcing one row"⟩ ∧
    (sampleOutboxes.ContainsForActor sampleLib (sampleTx (.ok twoRows) none)
      sampleIRI sampleIRI).1.2 =
      some ⟨"Outboxes.ContainsForActor: multiple database rows retrieved when enforcing one row"⟩ ∧
    (sampleOutboxes.GetPage sampleLib (sampleTx (.ok twoPageRows) none) sampleIRI 0 10).1.2 =
      some ⟨"Outboxes.GetPage: multiple database rows retrieved when enforcing one row"⟩ ∧
    (sampleOutboxes.GetPublicPage sampleLib (sampleTx (.ok twoPageRows) none)
      sampleIRI 0 10).1.2 =
      some ⟨"Outboxes.GetPublicPage: multiple database rows retrieved when enforcing one row"⟩ ∧
    (sampleOutboxes.OutboxForInbox sampleLib (sampleTx (.ok twoIRIRows) none) sampleIRI).1.2 =
      some ⟨"Outboxes.OutboxForInbox: multiple database rows retrieved when enforcing one row"⟩ := by
  refine ⟨?_, ?_, by decide, by decide, by decide, ?_, ?_, ?_, ?_, ?_⟩ <;> rfl

/-! ## Paths -/

/-- C26: for every scheme, host, userUUID and keyUUID for which `url.Parse`
accepts scheme://host/users, `PublicKeyPath(userUUID, keyUUID)` returns with a
nil error the URL parsed from scheme://host/users with its fragment set to
"key-" followed by keyUUID and every other component as in the result of
`UsersPath`; `UsersPath` returns the same URL for every userUUID, so the result
does not depend on userUUID; and when `url.Parse` fails, `UsersPath` and
`PublicKeyPath` return a nil URL and its error unchanged. -/
theorem publicKeyPath_sets_fragment (lib : Lib) (scheme host userUUID keyUUID : String) :
    (∀ u : url.URL, lib.urlParse (scheme ++ "://" ++ host ++ "/users") = .ok u →
      (NewPaths scheme host).PublicKeyPath lib userUUID keyUUID =
        (some { Scheme := u.Scheme, Host := u.Host, Path := u.Path, RawQuery := u.RawQuery,
                Fragment := "key-" ++ keyUUID }, none) ∧
      (∀ other : String, (NewPaths scheme host).UsersPath lib other = (some u, none)) ∧
      (∀ other : String, (NewPaths scheme host).PublicKeyPath lib other keyUUID =
        (NewPaths scheme host).PublicKeyPath lib userUUID keyUUID)) ∧
    (∀ e : GoError, lib.urlParse (scheme ++ "://" ++ host ++ "/users") = .error e →
      (NewPaths scheme host).UsersPath lib userUUID = (none, some e) ∧
      (NewPaths scheme host).PublicKeyPath lib userUUID keyUUID = (none, some e)) := by
  constructor
  · intro u hu
    have hU : ∀ other : String, (NewPaths scheme host).UsersPath lib other = (some u, none) := by
      intro other
      simp only [Paths.UsersPath, Paths.getBase, NewPaths, usersRoute, hu]
    refine ⟨?_, hU, ?_⟩
    · simp only [Paths.PublicKeyPath, hU, pubKeyFragmentPrefix]
    · intro other
      simp only [Paths.PublicKeyPath, hU]
  · intro e he
    have hU : ∀ other : String, (NewPaths scheme host).UsersPath lib other = (none, some e) := by
      intro other
      simp only [Paths.UsersPath, Paths.getBase, NewPaths, usersRoute, he]
    exact ⟨hU userUUID, by simp only [Paths.PublicKeyPath, hU]⟩

theorem publicKeyPath_sets_fragment_witness :
    (NewPaths "https" "example.com").PublicKeyPath
      { sampleLib with urlParse := fun _ => .ok ⟨"https", "example.com", "/users", "", ""⟩ }
      "user-1" "k1" = (some ⟨"https", "example.com", "/users", "", "key-k1"⟩, none) ∧
    (NewPaths "" "").PublicKeyPath { sampleLib with urlParse := fun _ => .error sampleErr }
      "user-1" "k1" = (none, some sampleErr) :=
  ⟨((publicKeyPath_sets_fragment
      { sampleLib with urlParse := fun _ => .ok ⟨"https", "example.com", "/users", "", ""⟩ }
      "https" "example.com" "user-1" "k1").1 ⟨"https", "example.com", "/users", "", ""⟩ rfl).1,
   ((publicKeyPath_sets_fragment { sampleLib with urlParse := fun _ => .error sampleErr }
      "" "" "user-1" "k1").2 sampleErr rfl).2⟩

/-! ## `defaultConfig` -/

/-- C27: `defaultConfig(dbkind)` returns a non-nil configuration with a nil
error if and only if dbkind = "postgres"; for every other dbkind it returns a
nil configuration and the non-nil "unsupported database kind" error; on success
the database section has DatabaseKind = dbkind, MaxIdleConns = 2 and
DefaultCollectionPageSize = 10. -/
theorem defaultConfig_supports_postgres_only (bcryptDefaultCost : Int) (dbkind : String) :
    (((defaultConfig bcryptDefaultCost dbkind).1 ≠ none ∧
      (defaultConfig bcryptDefaultCost dbkind).2 = none) ↔ dbkind = "postgres") ∧
    (dbkind ≠ "postgres" →
      defaultConfig bcryptDefaultCost dbkind =
        (none, some ⟨"unsupported database kind: " ++ dbkind⟩)) ∧
    (∀ c : config.Config, defaultConfig bcryptDefaultCost dbkind = (some c, none) →
      c.DatabaseConfig.DatabaseKind = dbkind ∧ c.DatabaseConfig.MaxIdleConns = 2 ∧
      c.DatabaseConfig.DefaultCollectionPageSize = 10) := by
  by_cases h : dbkind = "postgres"
  · subst h
    refine ⟨?_, ?_, ?_⟩
    · simp [defaultConfig, defaultDatabaseConfig, postgresDB]
    · intro hne
      exact absurd rfl hne
    · intro c hc
      simp [defaultConfig, defaultDatabaseConfig, postgresDB] at hc
      subst hc
      exact ⟨rfl, rfl, rfl⟩
  · have hd : defaultConfig bcryptDefaultCost dbkind =
        (none, some ⟨"unsupported database kind: " ++ dbkind⟩) := by
      simp [defaultConfig, defaultDatabaseConfig, postgresDB, h]
    refine ⟨?_, fun _ => hd, ?_⟩
    · rw [hd]
      simp [h]
    · intro c hc
      rw [hd] at hc
      simp at hc

theorem defaultConfig_supports_postgres_only_witness :
    defaultConfig 10 "mysql" = (none, some ⟨"unsupported database kind: mysql"⟩) ∧
    (∃ c : config.Config, defaultConfig 10 "postgres" = (some c, none) ∧
      c.DatabaseConfig.DatabaseKind = "postgres" ∧ c.DatabaseConfig.MaxIdleConns = 2 ∧
      c.DatabaseConfig.DefaultCollectionPageSize = 10) :=
  ⟨(defaultConfig_supports_postgres_only 10 "mysql").2.1 (by decide),
   ⟨{ ServerConfig := defaultServerConfig 10
      OAuthConfig := defaultOAuth2Config
      DatabaseConfig := ⟨"postgres", 2, 10, defaultPostgresConfig⟩
      ActivityPubConfig := defaultActivityPubConfig }, by decide,
    (defaultConfig_supports_postgres_only 10 "postgres").2.2 _ (by decide)⟩⟩

end Apcore
